import Mathlib

/-! The from-virtual syncer of the generic CRD sync plugin.

A shallow embedding of `pkg/syncer/from_virtual_syncer.go`:

* documents are unstructured JSON objects (`Object`), with the top-level `status`
  key kept apart from the rest of the content, as the executor does;
* the two storage clients, the logger, the event recorder and the patch-rule
  interpreter act on an explicit `World`, threaded through every operation;
* Go's `(value, error)` returns are values paired with an `Option Error`, and a
  library call that returns an `error` is an `Except`.

The collaborators that live outside the file (the patch-rule interpreter, the
metadata translator, the label-selector parser, the name cache, the cluster behind
the clients) are parameters.
-/

namespace Syncer

/-! ## JSON documents -/

/-- A JSON value, the dynamic `interface{}` held in an unstructured document. Go's
`nil` is `null`. Object members are kept in the key order of the JSON encoding, so
that `reflect.DeepEqual` on two values is structural equality. -/
inductive Value where
  | null
  | bool (b : Bool)
  | num (n : Int)
  | str (s : String)
  | arr (items : List Value)
  | obj (members : List (String × Value))

mutual
/-- Decision procedure for equality of JSON values. -/
def Value.decEq : (a b : Value) → Decidable (a = b)
  | .null, .null => isTrue rfl
  | .bool a, .bool b =>
    if h : a = b then isTrue (by rw [h]) else isFalse (by intro h2; cases h2; exact h rfl)
  | .num a, .num b =>
    if h : a = b then isTrue (by rw [h]) else isFalse (by intro h2; cases h2; exact h rfl)
  | .str a, .str b =>
    if h : a = b then isTrue (by rw [h]) else isFalse (by intro h2; cases h2; exact h rfl)
  | .arr a, .arr b =>
    match Value.decEqItems a b with
    | isTrue h => isTrue (by rw [h])
    | isFalse h => isFalse (by intro h2; cases h2; exact h rfl)
  | .obj a, .obj b =>
    match Value.decEqMembers a b with
    | isTrue h => isTrue (by rw [h])
    | isFalse h => isFalse (by intro h2; cases h2; exact h rfl)
  | .null, .bool _ | .null, .num _ | .null, .str _ | .null, .arr _ | .null, .obj _ =>
    isFalse (by intro h; cases h)
  | .bool _, .null | .bool _, .num _ | .bool _, .str _ | .bool _, .arr _ | .bool _, .obj _ =>
    isFalse (by intro h; cases h)
  | .num _, .null | .num _, .bool _ | .num _, .str _ | .num _, .arr _ | .num _, .obj _ =>
    isFalse (by intro h; cases h)
  | .str _, .null | .str _, .bool _ | .str _, .num _ | .str _, .arr _ | .str _, .obj _ =>
    isFalse (by intro h; cases h)
  | .arr _, .null | .arr _, .bool _ | .arr _, .num _ | .arr _, .str _ | .arr _, .obj _ =>
    isFalse (by intro h; cases h)
  | .obj _, .null | .obj _, .bool _ | .obj _, .num _ | .obj _, .str _ | .obj _, .arr _ =>
    isFalse (by intro h; cases h)
/-- Decision procedure for equality of JSON arrays. -/
def Value.decEqItems : (a b : List Value) → Decidable (a = b)
  | [], [] => isTrue rfl
  | [], _ :: _ => isFalse (by intro h; cases h)
  | _ :: _, [] => isFalse (by intro h; cases h)
  | x :: xs, y :: ys =>
    match Value.decEq x y, Value.decEqItems xs ys with
    | isTrue h1, isTrue h2 => isTrue (by rw [h1, h2])
    | isFalse h1, _ => isFalse (by intro h; cases h; exact h1 rfl)
    | _, isFalse h2 => isFalse (by intro h; cases h; exact h2 rfl)
/-- Decision procedure for equality of JSON object member lists. -/
def Value.decEqMembers : (a b : List (String × Value)) → Decidable (a = b)
  | [], [] => isTrue rfl
  | [], _ :: _ => isFalse (by intro h; cases h)
  | _ :: _, [] => isFalse (by intro h; cases h)
  | (k, x) :: xs, (l, y) :: ys =>
    if hk : k = l then
      match Value.decEq x y, Value.decEqMembers xs ys with
      | isTrue h1, isTrue h2 => isTrue (by rw [hk, h1, h2])
      | isFalse h1, _ => isFalse (by intro h; cases h; exact h1 rfl)
      | _, isFalse h2 => isFalse (by intro h; cases h; exact h2 rfl)
    else isFalse (by intro h; cases h; exact hk rfl)
end

instance : DecidableEq Value := Value.decEq

/-- The content of an `unstructured.Unstructured`, the `map[string]interface{}` that
`ToUnstructured` returns. The keys the syncer reads are fields of their own; `fields`
holds every other key (`spec`, `data`, the rest of `metadata`, ...). `status` is the
top-level `status` key: `none` when the key is absent, `some Value.null` when it is
present with a nil value. -/
structure Object where
  apiVersion : String
  kind : String
  Namespace : String
  name : String
  labels : List (String × String)
  fields : List (String × Value)
  status : Option Value
deriving DecidableEq

/-- The object `&unstructured.Unstructured{}`. -/
def Object.empty : Object := ⟨"", "", "", "", [], [], none⟩

/-- Go `obj.SetKind(kind)`. -/
def Object.SetKind (o : Object) (kind : String) : Object := { o with kind := kind }

/-- Go `obj.SetAPIVersion(version)`. -/
def Object.SetAPIVersion (o : Object) (version : String) : Object :=
  { o with apiVersion := version }

/-- Go `obj.GetObjectKind().GroupVersionKind().Kind`. -/
def Object.GetKind (o : Object) : String := o.kind

/-- Go `obj.GetNamespace()`. -/
def Object.GetNamespace (o : Object) : String := o.Namespace

/-- Go `obj.GetName()`. -/
def Object.GetName (o : Object) : String := o.name

/-- Go `obj.GetLabels()`. -/
def Object.GetLabels (o : Object) : List (String × String) := o.labels

/-- Go `obj.DeepCopyObject()`: values are immutable here, so the copy is the value. -/
def DeepCopyObject (o : Object) : Object := o

/-! ## Errors -/

/-- A Go `error`: its message, and the `metav1.StatusReason` and HTTP code that
`kerrors` reads off an API status error (`""` and `0` for any other error). -/
structure Error where
  msg : String
  reason : String
  code : Nat
deriving DecidableEq

/-- Go `fmt.Errorf` with `%v` verbs only: a plain error holding the formatted message.
The formatted error is not wrapped, so no API status is reachable from it. -/
def fmtErrorf (msg : String) : Error := ⟨msg, "", 0⟩

/-- Go `errors.Wrap(err, message)` of `github.com/pkg/errors`. -/
def errorsWrap (err : Error) (message : String) : Error :=
  { err with msg := message ++ ": " ++ err.msg }

/-- The `knownReasons` table of `k8s.io/apimachinery/pkg/api/errors`. -/
def knownReasons : List String :=
  ["Unauthorized", "Forbidden", "NotFound", "AlreadyExists", "Conflict", "Gone", "Invalid",
   "ServerTimeout", "Timeout", "TooManyRequests", "BadRequest", "MethodNotAllowed",
   "NotAcceptable", "RequestEntityTooLarge", "UnsupportedMediaType", "InternalError",
   "Expired", "ServiceUnavailable"]

/-- Go `kerrors.IsInvalid(err)`: the reason is `Invalid`, or the reason is not a known
one and the code is 422. -/
def IsInvalid (err : Error) : Bool :=
  err.reason == "Invalid" || (!(knownReasons.contains err.reason) && err.code == 422)

/-! ## Results -/

/-- Go `controllerutil.OperationResult`. -/
inductive OperationResult where
  | OperationResultNone
  | OperationResultCreated
  | OperationResultUpdated
  | OperationResultUpdatedStatus
  | OperationResultUpdatedStatusOnly
deriving DecidableEq

open OperationResult

/-- Go `ctrl.Result`; `ctrl.Result{}` is `Result.zero`. -/
structure Result where
  Requeue : Bool
  RequeueAfter : Nat
deriving DecidableEq

/-- The value `ctrl.Result{}`. -/
def Result.zero : Result := ⟨false, 0⟩

/-- The value `ctrl.Result{Requeue: true}`. -/
def Result.requeue : Result := ⟨true, 0⟩

/-! ## The world: clients, log, events, interpreter invocations -/

/-- A JSON patch (RFC 6902) as computed by `jsondiff.Compare(source, target)`. The
operations are a function of the two documents, which stand for them here. -/
structure JSONPatch where
  source : Object
  target : Object
deriving DecidableEq

/-- Which client a request goes to: `ctx.PhysicalClient` or `ctx.VirtualClient`. -/
inductive Side where
  | physical
  | virtual
deriving DecidableEq

/-- A request of the `client.Client` interface, as used by the syncer.
`StatusPatch` is `c.Status().Patch`. -/
inductive Request where
  | Create (obj : Object)
  | Delete (obj : Object)
  | Patch (obj : Object) (patch : JSONPatch)
  | StatusPatch (obj : Object) (patch : JSONPatch)
deriving DecidableEq

/-- The outcome of a client request: the object as the server returned it (the client
decodes it into the `obj` argument), or the error. -/
inductive Response where
  | ok (obj : Object)
  | fail (err : Error)
deriving DecidableEq

/-- One client request as it happened: where it went, what it was, what came back. -/
structure Entry where
  side : Side
  req : Request
  resp : Response
deriving DecidableEq

/-- A rule of `config.Patch`. The syncer hands rules to the interpreter and never
looks inside. -/
structure ConfigPatch where
  rule : String
deriving DecidableEq

/-- One invocation of `patches.ApplyPatches`: the destination as it was handed over,
the source and the rule list. -/
structure PatchApplication where
  dest : Object
  src : Object
  rules : List ConfigPatch
deriving DecidableEq

/-- One `EventRecorder().Eventf` call. -/
structure RecordedEvent where
  obj : Object
  eventtype : String
  reason : String
  message : String
deriving DecidableEq

/-- Everything the syncer does to its surroundings, oldest first: the client requests
with their responses, the invocations of the patch-rule interpreter, the log lines and
the recorded events. -/
structure World where
  calls : List Entry
  applied : List PatchApplication
  logs : List String
  events : List RecordedEvent
deriving DecidableEq

/-- The world before anything happened. -/
def World.empty : World := ⟨[], [], [], []⟩

/-- Go `ctx.Log.Infof(...)` with the formatted line. -/
def World.Infof (w : World) (line : String) : World := { w with logs := w.logs ++ [line] }

/-- Go `f.EventRecorder().Eventf(obj, eventtype, reason, ...)` with the formatted message. -/
def World.Eventf (w : World) (obj : Object) (eventtype reason message : String) : World :=
  { w with events := w.events ++ [⟨obj, eventtype, reason, message⟩] }

/-- The context of one reconciliation. `cluster` is what stands behind both clients: it
answers a request from the requests answered so far. -/
structure SyncContext where
  cluster : List Entry → Side → Request → Response

/-- A `client.Client`: one side of the cluster of a context. -/
structure Client where
  ctx : SyncContext
  side : Side

/-- Go `ctx.PhysicalClient`. -/
def SyncContext.PhysicalClient (ctx : SyncContext) : Client := ⟨ctx, Side.physical⟩

/-- Go `ctx.VirtualClient`. -/
def SyncContext.VirtualClient (ctx : SyncContext) : Client := ⟨ctx, Side.virtual⟩

/-- Sends one request and records it with its response. -/
def Client.send (c : Client) (w : World) (req : Request) : World × Response :=
  let resp := c.ctx.cluster w.calls c.side req
  ({ w with calls := w.calls ++ [⟨c.side, req, resp⟩] }, resp)

/-- Go `c.Create(ctx, obj)`: on success `obj` becomes the object the server returned. -/
def Client.Create (c : Client) (w : World) (obj : Object) : World × Object × Option Error :=
  match c.send w (Request.Create obj) with
  | (w1, Response.ok stored) => (w1, stored, none)
  | (w1, Response.fail err) => (w1, obj, some err)

/-- Go `c.Delete(ctx, obj)`. -/
def Client.Delete (c : Client) (w : World) (obj : Object) : World × Option Error :=
  match c.send w (Request.Delete obj) with
  | (w1, Response.ok _) => (w1, none)
  | (w1, Response.fail err) => (w1, some err)

/-- Go `c.Patch(ctx, obj, client.RawPatch(types.JSONPatchType, patchBytes))`: on success
`obj` becomes the object the server returned. -/
def Client.Patch (c : Client) (w : World) (obj : Object) (patchBytes : JSONPatch) :
    World × Object × Option Error :=
  match c.send w (Request.Patch obj patchBytes) with
  | (w1, Response.ok stored) => (w1, stored, none)
  | (w1, Response.fail err) => (w1, obj, some err)

/-- Go `c.Status().Patch(ctx, obj, client.RawPatch(types.JSONPatchType, patchBytes))`. -/
def Client.StatusPatch (c : Client) (w : World) (obj : Object) (patchBytes : JSONPatch) :
    World × Object × Option Error :=
  match c.send w (Request.StatusPatch obj patchBytes) with
  | (w1, Response.ok stored) => (w1, stored, none)
  | (w1, Response.fail err) => (w1, obj, some err)

/-! ## Configuration, name cache, selector and the other collaborators -/

/-- Go `config.Selector`, the field the syncer reads. -/
structure ConfigSelector where
  LabelSelector : List (String × String)

/-- Go `config.FromVirtualCluster`, the fields the syncer reads. -/
structure FromVirtualCluster where
  Kind : String
  ApiVersion : String
  Patches : List ConfigPatch
  ReversePatches : List ConfigPatch
  Selector : Option ConfigSelector

/-- The value `namecache.ResolveName` returns. -/
structure NamespacedName where
  Namespace : String
  Name : String
deriving DecidableEq

/-- Go `namecache.NameCache`, the method the syncer calls. -/
structure NameCache where
  ResolveName : String → String → NamespacedName

/-- Go `labels.Selector`, the method the syncer calls. -/
structure Selector where
  Matches : List (String × String) → Bool

/-- Go `translator.NamespacedTranslator`, the metadata translation the syncer calls. -/
structure NamespacedTranslator where
  TranslateMetadata : Object → Object

/-- The `NameResolver` interface of the patch-rule interpreter: `TranslateName(name, path)`. -/
abbrev NameResolver := String → String → Except Error String

/-- The library functions the syncer calls and this file does not define.
`ApplyPatches` mutates its destination in place and may fail, so it returns the
destination as it left it together with the error. -/
structure Externals where
  ApplyPatches : Object → Object → List ConfigPatch → NameResolver → Object × Option Error
  PhysicalName : String → String → String
  LabelSelectorAsSelector : List (String × String) → Except Error Selector
  NewNamespacedTranslator : String → Object → NamespacedTranslator

/-- Go `metav1.SetAsLabelSelector(ls)`: the label set, as the `MatchLabels` of a selector. -/
def SetAsLabelSelector (ls : List (String × String)) : List (String × String) := ls

/-- Go `patches.ApplyPatches(destObj, sourceObj, patchesConf, nameResolver)`: the
invocation is recorded, then the interpreter runs. -/
def patchesApplyPatches (ext : Externals) (w : World) (destObj sourceObj : Object)
    (patchesConf : List ConfigPatch) (nameResolver : NameResolver) :
    World × Object × Option Error :=
  let out := ext.ApplyPatches destObj sourceObj patchesConf nameResolver
  ({ w with applied := w.applied ++ [⟨destObj, sourceObj, patchesConf⟩] }, out.1, out.2)

/-! ## Name resolvers (source lines 305-324) -/

/-- Go `virtualToHostNameResolver`. -/
structure virtualToHostNameResolver where
  Namespace : String

/-- Go `(*virtualToHostNameResolver).TranslateName`. -/
def virtualToHostNameResolver.TranslateName (ext : Externals) (r : virtualToHostNameResolver)
    (name : String) (_path : String) : Except Error String :=
  Except.ok (ext.PhysicalName name r.Namespace)

/-- Go `hostToVirtualNameResolver`. -/
structure hostToVirtualNameResolver where
  namecache : NameCache

/-- Go `(*hostToVirtualNameResolver).TranslateName`. -/
def hostToVirtualNameResolver.TranslateName (r : hostToVirtualNameResolver)
    (name : String) (path : String) : Except Error String :=
  let n := r.namecache.ResolveName name path
  if n.Name = "" then
    Except.error (fmtErrorf
      ("could not translate " ++ name ++ " host resource name to vcluster resource name"))
  else
    Except.ok n.Name

/-! ## The controller (source lines 29-63, 301-303) -/

/-- Go `fromVirtualController`. -/
structure fromVirtualController where
  NamespacedTranslator : NamespacedTranslator
  config : FromVirtualCluster
  namecache : NameCache
  selector : Option Selector
  statusIsSubresource : Bool

/-- Go `CreateFromVirtualSyncer`. -/
def CreateFromVirtualSyncer (ext : Externals) (config : FromVirtualCluster) (nc : NameCache) :
    Except Error fromVirtualController :=
  let obj := (Object.empty.SetKind config.Kind).SetAPIVersion config.ApiVersion
  let parsed : Except Error (Option Selector) :=
    match config.Selector with
    | some s =>
      if s.LabelSelector.length > 0 then
        match ext.LabelSelectorAsSelector (SetAsLabelSelector s.LabelSelector) with
        | Except.error err => Except.error (errorsWrap err "parse label selector")
        | Except.ok sel => Except.ok (some sel)
      else Except.ok none
    | none => Except.ok none
  match parsed with
  | Except.error err => Except.error err
  | Except.ok selector =>
    let statusIsSubresource := true
    Except.ok
      { NamespacedTranslator :=
          ext.NewNamespacedTranslator (config.Kind ++ "-from-virtual-syncer") obj
        config := config
        namecache := nc
        selector := selector
        statusIsSubresource := statusIsSubresource }

/-- Go `(*fromVirtualController).objectMatches`:
`f.selector == nil || !f.selector.Matches(labels.Set(obj.GetLabels()))`. -/
def objectMatches (f : fromVirtualController) (obj : Object) : Bool :=
  match f.selector with
  | none => true
  | some selector => !selector.Matches obj.GetLabels

/-! ## The diff and patch executor (source lines 161-299) -/

/-- Go `MutateFn`, a closure that mutates the object it captured: here it takes the
object and the world and returns both, with the error. -/
abbrev MutateFn := World → Object → World × Object × Option Error

/-- What `executeObjectPatch` leaves behind: the world, the object (mutated in place
in Go), and the two values it returns. -/
structure ExecOut where
  world : World
  obj : Object
  result : OperationResult
  err : Option Error
deriving DecidableEq

/-- Go `runtime.DefaultUnstructuredConverter.ToUnstructured(obj)`: an unstructured
object is its own content, and the conversion of one does not fail. -/
def ToUnstructured (obj : Object) : Except Error Object := Except.ok obj

/-- Go `runtime.DefaultUnstructuredConverter.FromUnstructured(u, obj)`: the content
becomes the object. -/
def FromUnstructured (u : Object) : Except Error Object := Except.ok u

/-- Go `unstructured.NestedFieldCopy(obj, "status")`: the value, whether the key is
there, and an error that the one-key path on a map never produces. An absent key
gives Go's nil. -/
def NestedFieldCopy (obj : Object) : Except Error (Value × Bool) :=
  match obj.status with
  | some v => Except.ok (v, true)
  | none => Except.ok (Value.null, false)

/-- Go `unstructured.RemoveNestedField(obj, "status")`. -/
def RemoveNestedField (obj : Object) : Object := { obj with status := none }

/-- Go `unstructured.SetNestedField(obj, value, "status")`. -/
def SetNestedField (obj : Object) (value : Value) : Except Error Object :=
  Except.ok { obj with status := some value }

/-- Go `jsondiff.Compare(source, target)`; it does not fail on JSON documents. -/
def jsondiffCompare (source target : Object) : Except Error JSONPatch :=
  Except.ok ⟨source, target⟩

/-- Go `json.Marshal(patch)`: the bytes stand for the patch they encode. -/
def jsonMarshal (patch : JSONPatch) : Except Error JSONPatch := Except.ok patch

/-- Source lines 218-235 of `executeObjectPatch`: the body patch. An early `return` of
the function is `Except.error`; otherwise the world, the object and `updated`. -/
def executeObjectPatch.body (c : Client) (w : World) (obj : Object) (before after : Object) :
    Except ExecOut (World × Object × Bool) :=
  if before ≠ after then
    match jsondiffCompare before after with
    | Except.error err => Except.error ⟨w, obj, OperationResultNone, some err⟩
    | Except.ok patch =>
    match jsonMarshal patch with
    | Except.error err => Except.error ⟨w, obj, OperationResultNone, some err⟩
    | Except.ok patchBytes =>
    match c.Patch w obj patchBytes with
    | (w1, obj1, some err) => Except.error ⟨w1, obj1, OperationResultNone, some err⟩
    | (w1, obj1, none) => Except.ok (w1, obj1, true)
  else Except.ok (w, obj, false)

/-- The `if updated` choice made at every failure of the status block. -/
def executeObjectPatch.resultSoFar (updated : Bool) : OperationResult :=
  if updated then OperationResultUpdated else OperationResultNone

/-- Source lines 237-289 of `executeObjectPatch`: the status patch. An early `return`
of the function is `Except.error`; otherwise the world, the object and `statusUpdated`. -/
def executeObjectPatch.status (c : Client) (w : World) (obj : Object)
    (statusIsSubresource : Bool) (beforeWithStatus : Object)
    (beforeStatus : Value) (hasBeforeStatus : Bool) (afterStatus : Value) (hasAfterStatus : Bool)
    (updated : Bool) : Except ExecOut (World × Object × Bool) :=
  if statusIsSubresource && (hasBeforeStatus || hasAfterStatus) && beforeStatus ≠ afterStatus then
    match ToUnstructured obj with
    | Except.error err =>
      Except.error ⟨w, obj, executeObjectPatch.resultSoFar updated, some err⟩
    | Except.ok objectAfterPatch =>
    match SetNestedField objectAfterPatch afterStatus with
    | Except.error err =>
      Except.error ⟨w, obj, executeObjectPatch.resultSoFar updated, some err⟩
    | Except.ok objectAfterPatch =>
    match FromUnstructured objectAfterPatch with
    | Except.error err =>
      Except.error ⟨w, obj, executeObjectPatch.resultSoFar updated, some err⟩
    | Except.ok obj1 =>
    match jsondiffCompare beforeWithStatus objectAfterPatch with
    | Except.error err =>
      Except.error ⟨w, obj1, executeObjectPatch.resultSoFar updated, some err⟩
    | Except.ok statusPatch =>
    match jsonMarshal statusPatch with
    | Except.error err =>
      Except.error ⟨w, obj1, executeObjectPatch.resultSoFar updated, some err⟩
    | Except.ok statusPatchBytes =>
    match c.StatusPatch w obj1 statusPatchBytes with
    | (w2, obj2, some err) =>
      Except.error ⟨w2, obj2, executeObjectPatch.resultSoFar updated, some err⟩
    | (w2, obj2, none) => Except.ok (w2, obj2, true)
  else Except.ok (w, obj, false)

/-- Go `executeObjectPatch(ctx, c, obj, f)`. -/
def executeObjectPatch (c : Client) (w : World) (obj : Object) (f : MutateFn) : ExecOut :=
  let statusIsSubresource := true
  match ToUnstructured (DeepCopyObject obj) with
  | Except.error err => ⟨w, obj, OperationResultNone, some err⟩
  | Except.ok before =>
  let beforeWithStatus := before
  match NestedFieldCopy before with
  | Except.error err => ⟨w, obj, OperationResultNone, some err⟩
  | Except.ok (beforeStatus, hasBeforeStatus) =>
  let before := if hasBeforeStatus && statusIsSubresource then RemoveNestedField before else before
  match f w obj with
  | (w1, obj1, some err) =>
    ⟨w1, obj1, OperationResultNone,
      some (fmtErrorf ("failed to apply declared patches to " ++ obj1.GetKind ++ " " ++
        obj1.GetNamespace ++ "/" ++ obj1.GetName ++ ": " ++ err.msg))⟩
  | (w1, obj1, none) =>
  match ToUnstructured obj1 with
  | Except.error err => ⟨w1, obj1, OperationResultNone, some err⟩
  | Except.ok after =>
  match NestedFieldCopy after with
  | Except.error err => ⟨w1, obj1, OperationResultNone, some err⟩
  | Except.ok (afterStatus, hasAfterStatus) =>
  let after := if hasAfterStatus && statusIsSubresource then RemoveNestedField after else after
  match executeObjectPatch.body c w1 obj1 before after with
  | Except.error out => out
  | Except.ok (w2, obj2, updated) =>
  match executeObjectPatch.status c w2 obj2 statusIsSubresource beforeWithStatus
      beforeStatus hasBeforeStatus afterStatus hasAfterStatus updated with
  | Except.error out => out
  | Except.ok (w3, obj3, statusUpdated) =>
  if updated && statusUpdated then ⟨w3, obj3, OperationResultUpdatedStatus, none⟩
  else if updated && !statusUpdated then ⟨w3, obj3, OperationResultUpdated, none⟩
  else if !updated && statusUpdated then ⟨w3, obj3, OperationResultUpdatedStatusOnly, none⟩
  else ⟨w3, obj3, OperationResultNone, none⟩

/-! ## The sync orchestrator (source lines 67-159) -/

/-- What `SyncDown` and `Sync` leave behind: the world and the two values returned. -/
structure SyncOut where
  world : World
  result : Result
  err : Option Error
deriving DecidableEq

/-- The closure `Sync` passes for the physical object (source lines 118-124). -/
def Sync.forwardMutate (ext : Externals) (f : fromVirtualController) (vObj : Object) : MutateFn :=
  fun w updatedPObj =>
    match patchesApplyPatches ext w updatedPObj vObj f.config.Patches
        (virtualToHostNameResolver.TranslateName ext ⟨vObj.GetNamespace⟩) with
    | (w1, obj1, some err) => (w1, obj1, some (fmtErrorf ("error applying patches: " ++ err.msg)))
    | (w1, obj1, none) => (w1, obj1, none)

/-- The closure `Sync` passes for the virtual object (source lines 141-147). -/
def Sync.reverseMutate (ext : Externals) (f : fromVirtualController) (pObj : Object) : MutateFn :=
  fun w vObj =>
    match patchesApplyPatches ext w vObj pObj f.config.ReversePatches
        (hostToVirtualNameResolver.TranslateName ⟨f.namecache⟩) with
    | (w1, obj1, some err) => (w1, obj1, some (fmtErrorf ("error applying patches: " ++ err.msg)))
    | (w1, obj1, none) => (w1, obj1, none)

/-- Go `(*fromVirtualController).SyncDown`. -/
def SyncDown (ext : Externals) (f : fromVirtualController) (ctx : SyncContext) (w : World)
    (vObj : Object) : SyncOut :=
  if !objectMatches f vObj then ⟨w, Result.zero, none⟩
  else
  let newObj := f.NamespacedTranslator.TranslateMetadata vObj
  match patchesApplyPatches ext w newObj vObj f.config.Patches
      (virtualToHostNameResolver.TranslateName ext ⟨vObj.GetNamespace⟩) with
  | (w1, _, some err) => ⟨w1, Result.zero, some (fmtErrorf ("error applying patches: " ++ err.msg))⟩
  | (w1, newObj1, none) =>
  let w2 := w1.Infof ("create physical " ++ f.config.Kind ++ " " ++ newObj1.GetNamespace ++ "/" ++
    newObj1.GetName)
  match ctx.PhysicalClient.Create w2 newObj1 with
  | (w3, _, some err) =>
    let w4 := w3.Infof ("error syncing " ++ f.config.Kind ++ " " ++ vObj.GetNamespace ++ "/" ++
      vObj.GetName ++ " to physical cluster: " ++ err.msg)
    let w5 := w4.Eventf vObj "Warning" "SyncError" ("Error syncing to physical cluster: " ++ err.msg)
    ⟨w5, Result.zero, some err⟩
  | (w3, _, none) => ⟨w3, Result.zero, none⟩

/-- The log line of source lines 127 and 150. -/
def Sync.timingWarning (kind ns name : String) (err : Error) : String :=
  "Warning: this message could indicate a timing issue with no significant impact, or a bug. " ++
  "Please report this if your resource never reaches the expected state. " ++
  "Error message: failed to patch virtual " ++ kind ++ " " ++ ns ++ "/" ++ name ++ ": " ++ err.msg

/-- Go `(*fromVirtualController).Sync`. -/
def Sync (ext : Externals) (f : fromVirtualController) (ctx : SyncContext) (w : World)
    (pObj vObj : Object) : SyncOut :=
  if !objectMatches f vObj then
    let w1 := w.Infof ("delete physical " ++ f.config.Kind ++ " " ++ pObj.GetNamespace ++ "/" ++
      pObj.GetName ++ ", because it is not used anymore")
    match ctx.PhysicalClient.Delete w1 pObj with
    | (w2, some err) =>
      let w3 := w2.Infof ("error deleting physical " ++ f.config.Kind ++ " " ++ pObj.GetNamespace ++
        "/" ++ pObj.GetName ++ " in physical cluster: " ++ err.msg)
      ⟨w3, Result.zero, some err⟩
    | (w2, none) => ⟨w2, Result.zero, none⟩
  else
  let updatedPObj := DeepCopyObject pObj
  let fwd := executeObjectPatch ctx.PhysicalClient w updatedPObj (Sync.forwardMutate ext f vObj)
  match fwd.err with
  | some err =>
    if IsInvalid err then
      ⟨fwd.world.Infof (Sync.timingWarning f.config.Kind pObj.GetNamespace pObj.GetName err),
        Result.requeue, none⟩
    else
      ⟨fwd.world, Result.zero, some (fmtErrorf ("failed to patch physical " ++ f.config.Kind ++ " " ++
        pObj.GetNamespace ++ "/" ++ pObj.GetName ++ ": " ++ err.msg))⟩
  | none =>
  if fwd.result = OperationResultUpdated ∨ fwd.result = OperationResultUpdatedStatus ∨
      fwd.result = OperationResultUpdatedStatusOnly then
    ⟨fwd.world, Result.zero, none⟩
  else
  let rev := executeObjectPatch ctx.VirtualClient fwd.world vObj (Sync.reverseMutate ext f pObj)
  match rev.err with
  | some err =>
    if IsInvalid err then
      ⟨rev.world.Infof (Sync.timingWarning f.config.Kind rev.obj.GetNamespace rev.obj.GetName err),
        Result.requeue, none⟩
    else
      ⟨rev.world, Result.zero, some (fmtErrorf ("failed to patch virtual " ++ f.config.Kind ++ " " ++
        rev.obj.GetNamespace ++ "/" ++ rev.obj.GetName ++ ": " ++ err.msg))⟩
  | none => ⟨rev.world, Result.zero, none⟩

/-! ## Vocabulary of the statements -/


/-- The value Go reads at the `status` key (`beforeStatus` and `afterStatus` of source
lines 183 and 207): the value under the key, Go's nil when the key is absent. -/
def Object.statusValue (o : Object) : Value :=
  match o.status with
  | some v => v
  | none => Value.null

/-- The body patch request of source line 230 for a document `obj` mutated into `obj1`. -/
def bodyPatchRequest (obj obj1 : Object) : Request :=
  Request.Patch obj1 ⟨RemoveNestedField obj, RemoveNestedField obj1⟩

/-- The status patch request of source line 281 for a document `obj` mutated into
`obj1`, when the object in hand before the status block is `cur` (`obj1` itself, or
what the server returned for the body patch). -/
def statusPatchRequest (obj obj1 cur : Object) : Request :=
  Request.StatusPatch { cur with status := some obj1.statusValue }
    ⟨obj, { cur with status := some obj1.statusValue }⟩

/-- A client request together with the response of the cluster, given the requests so far. -/
def Client.entry (c : Client) (calls : List Entry) (req : Request) : Entry :=
  ⟨c.side, req, c.ctx.cluster calls c.side req⟩

/-- Whether a request is a body patch or a status patch. -/
def Request.isPatch : Request → Bool
  | Request.Patch _ _ => true
  | Request.StatusPatch _ _ => true
  | _ => false

/-- The requests recorded in `w1` after those of `w`. -/
def World.since (w w1 : World) : List Entry := w1.calls.drop w.calls.length

/-- The forward run of the executor inside `Sync` (source line 118). -/
def Sync.forward (ext : Externals) (f : fromVirtualController) (ctx : SyncContext) (w : World)
    (pObj vObj : Object) : ExecOut :=
  executeObjectPatch ctx.PhysicalClient w (DeepCopyObject pObj) (Sync.forwardMutate ext f vObj)

/-- The reverse run of the executor inside `Sync`, reached when the forward run
reported no error and no change (source line 141). -/
def Sync.reverse (ext : Externals) (f : fromVirtualController) (ctx : SyncContext) (w : World)
    (pObj vObj : Object) : ExecOut :=
  executeObjectPatch ctx.VirtualClient (Sync.forward ext f ctx w pObj vObj).world vObj
    (Sync.reverseMutate ext f pObj)

/-! ## A storage that applies patches faithfully -/

/-- The two stored copies of a resource pair; `none` when the copy does not exist. -/
structure Store where
  physical : Option Object
  virtual : Option Object
deriving DecidableEq

/-- The stored copy on one side. -/
def Store.get (s : Store) : Side → Option Object
  | Side.physical => s.physical
  | Side.virtual => s.virtual

/-- The store with the copy on one side replaced. -/
def Store.set (s : Store) (side : Side) (o : Option Object) : Store :=
  match side with
  | Side.physical => { s with physical := o }
  | Side.virtual => { s with virtual := o }

/-- The error of a request on a copy that does not exist (HTTP 404). -/
def notFoundError : Error := ⟨"not found", "NotFound", 404⟩

/-- The error of a create on a copy that exists (HTTP 409). -/
def alreadyExistsError : Error := ⟨"already exists", "AlreadyExists", 409⟩

/-- What a faithful storage does with one request. A body patch replaces everything
but the status by what the patch leads to (status is a subresource, the main endpoint
leaves it alone); a status patch replaces the status by the status the patch leads to.
Both answer with the stored object. -/
def Store.handle (s : Store) (side : Side) (req : Request) : Store × Response :=
  match req with
  | Request.Create obj =>
    match s.get side with
    | some _ => (s, Response.fail alreadyExistsError)
    | none => (s.set side (some obj), Response.ok obj)
  | Request.Delete obj =>
    match s.get side with
    | some _ => (s.set side none, Response.ok obj)
    | none => (s, Response.fail notFoundError)
  | Request.Patch _ patch =>
    match s.get side with
    | some cur =>
      (s.set side (some { patch.target with status := cur.status }),
        Response.ok { patch.target with status := cur.status })
    | none => (s, Response.fail notFoundError)
  | Request.StatusPatch _ patch =>
    match s.get side with
    | some cur =>
      (s.set side (some { cur with status := patch.target.status }),
        Response.ok { cur with status := patch.target.status })
    | none => (s, Response.fail notFoundError)

/-- The store after the requests of a history, oldest first. -/
def Store.replay (s : Store) (calls : List Entry) : Store :=
  calls.foldl (fun st e => (st.handle e.side e.req).1) s

/-- The cluster of a faithful storage that started as `init`: nothing but the requests
of the history changes it. -/
def memoryCluster (init : Store) : SyncContext :=
  ⟨fun calls side req => ((init.replay calls).handle side req).2⟩

/-- Two documents the executor cannot tell apart: equal without their status, and with
the same status value (lines 218 and 237 compare exactly these). -/
def Object.sameContent (a b : Object) : Prop :=
  RemoveNestedField a = RemoveNestedField b ∧ a.statusValue = b.statusValue

instance (a b : Object) : Decidable (a.sameContent b) := by
  unfold Object.sameContent; infer_instance

/-- The interpreter is idempotent on the forward rules: a target that already is what a
successful application produced is left as it is. -/
def ForwardIdempotent (ext : Externals) (f : fromVirtualController) : Prop :=
  ∀ src t t1 : Object,
    (ext.ApplyPatches t src f.config.Patches
      (virtualToHostNameResolver.TranslateName ext ⟨src.GetNamespace⟩)).2 = none →
    t1.sameContent (ext.ApplyPatches t src f.config.Patches
      (virtualToHostNameResolver.TranslateName ext ⟨src.GetNamespace⟩)).1 →
    (ext.ApplyPatches t1 src f.config.Patches
      (virtualToHostNameResolver.TranslateName ext ⟨src.GetNamespace⟩)).2 = none ∧
    (ext.ApplyPatches t1 src f.config.Patches
      (virtualToHostNameResolver.TranslateName ext ⟨src.GetNamespace⟩)).1.sameContent t1

/-- The interpreter is idempotent on the reverse rules. -/
def ReverseIdempotent (ext : Externals) (f : fromVirtualController) : Prop :=
  ∀ src t t1 : Object,
    (ext.ApplyPatches t src f.config.ReversePatches
      (hostToVirtualNameResolver.TranslateName ⟨f.namecache⟩)).2 = none →
    t1.sameContent (ext.ApplyPatches t src f.config.ReversePatches
      (hostToVirtualNameResolver.TranslateName ⟨f.namecache⟩)).1 →
    (ext.ApplyPatches t1 src f.config.ReversePatches
      (hostToVirtualNameResolver.TranslateName ⟨f.namecache⟩)).2 = none ∧
    (ext.ApplyPatches t1 src f.config.ReversePatches
      (hostToVirtualNameResolver.TranslateName ⟨f.namecache⟩)).1.sameContent t1

/-- The forward rule application of `Sync` (source line 119). -/
def Sync.applyForward (ext : Externals) (f : fromVirtualController) (pObj vObj : Object) :
    Object × Option Error :=
  ext.ApplyPatches pObj vObj f.config.Patches
    (virtualToHostNameResolver.TranslateName ext ⟨vObj.GetNamespace⟩)

/-- The reverse rule application of `Sync` (source line 142). -/
def Sync.applyReverse (ext : Externals) (f : fromVirtualController) (pObj vObj : Object) :
    Object × Option Error :=
  ext.ApplyPatches vObj pObj f.config.ReversePatches
    (hostToVirtualNameResolver.TranslateName ⟨f.namecache⟩)

/-- The first of two `Sync` calls in succession on a faithful storage holding the pair. -/
def firstSync (ext : Externals) (f : fromVirtualController) (pObj vObj : Object) : SyncOut :=
  Sync ext f (memoryCluster ⟨some pObj, some vObj⟩) World.empty pObj vObj

/-- The store after the first call. -/
def storeAfterFirstSync (ext : Externals) (f : fromVirtualController) (pObj vObj : Object) :
    Store :=
  Store.replay ⟨some pObj, some vObj⟩ (firstSync ext f pObj vObj).world.calls

/-- The second call: the same controller and cluster, the world the first call left,
the pair as re-read from the store. -/
def secondSync (ext : Externals) (f : fromVirtualController) (pObj vObj : Object)
    (pObj1 vObj1 : Object) : SyncOut :=
  Sync ext f (memoryCluster ⟨some pObj, some vObj⟩) (firstSync ext f pObj vObj).world pObj1 vObj1

/-! ## Concrete inputs -/

/-- A virtual `Widget` named `a` in namespace `ns`, labelled `env=prod`, without status. -/
def widget : Object :=
  ⟨"example.com/v1", "Widget", "ns", "a", [("env", "prod")],
    [("spec", Value.obj [("size", Value.num 1)])], none⟩

/-- The physical counterpart of `widget`, with a status. -/
def hostWidget : Object :=
  ⟨"example.com/v1", "Widget", "vcluster", "a-x-ns-x-vc", [("env", "prod")],
    [("spec", Value.obj [("size", Value.num 1)])], some (Value.obj [("phase", Value.str "Ready")])⟩

/-- A cluster that accepts every request and returns the object it was sent. -/
def echoCluster : SyncContext :=
  ⟨fun _ _ req =>
    match req with
    | Request.Create obj => Response.ok obj
    | Request.Delete obj => Response.ok obj
    | Request.Patch obj _ => Response.ok obj
    | Request.StatusPatch obj _ => Response.ok obj⟩

/-- A cluster that rejects every request with the given error. -/
def rejectingCluster (err : Error) : SyncContext := ⟨fun _ _ _ => Response.fail err⟩

/-- A cluster that accepts body patches and rejects every other request with the given error. -/
def statusRejectingCluster (err : Error) : SyncContext :=
  ⟨fun _ _ req =>
    match req with
    | Request.Patch obj _ => Response.ok obj
    | _ => Response.fail err⟩

/-- The validation error of an API server (HTTP 422, reason `Invalid`). -/
def invalidError : Error := ⟨"status.phase: Invalid value", "Invalid", 422⟩

/-- The conflict error of an API server (HTTP 409, reason `Conflict`). -/
def conflictError : Error := ⟨"the object has been modified", "Conflict", 409⟩

/-- A mutate function that fails. -/
def failingMutate : MutateFn := fun w obj => (w, obj, some (fmtErrorf "no such path"))

/-- A mutate function that sets the status and leaves the rest. -/
def setStatusMutate (v : Value) : MutateFn := fun w obj => (w, { obj with status := some v }, none)

/-- A mutate function that sets the other fields and leaves the status. -/
def setFieldsMutate (fields : List (String × Value)) : MutateFn :=
  fun w obj => (w, { obj with fields := fields }, none)

/-- A mutate function that sets both the other fields and the status. -/
def setFieldsAndStatusMutate (fields : List (String × Value)) (v : Value) : MutateFn :=
  fun w obj => (w, { obj with fields := fields, status := some v }, none)

/-- The document `widget` after `setStatusMutate` gave it the status `Ready`. -/
def readyWidget : Object := { widget with status := some (Value.str "Ready") }

/-- The document `widget` with other fields. -/
def resizedWidget : Object := { widget with fields := [("spec", Value.obj [("size", Value.num 2)])] }

/-- The document `widget` with other fields and the status `Ready`. -/
def resizedReadyWidget : Object :=
  { widget with fields := [("spec", Value.obj [("size", Value.num 2)])],
                status := some (Value.str "Ready") }

/-- A selector built from a label set, as `LabelSelectorAsSelector` builds it from
`MatchLabels`: every pair of the set is among the labels. -/
def setSelector (ls : List (String × String)) : Selector :=
  ⟨fun labels => ls.all (fun kv => labels.lookup kv.1 == some kv.2)⟩

/-- One rule of the sample interpreter. `copyFields` and `copyStatus` copy from the
source; `rewriteRef` translates the name of the source with the name resolver and
stores it under `ref`; any other rule fails. -/
def sampleRule (nameResolver : NameResolver) (src : Object) (dest : Object × Option Error)
    (rule : ConfigPatch) : Object × Option Error :=
  match dest.2 with
  | some err => (dest.1, some err)
  | none =>
    if rule.rule = "copyFields" then ({ dest.1 with fields := src.fields }, none)
    else if rule.rule = "copyStatus" then ({ dest.1 with status := src.status }, none)
    else if rule.rule = "rewriteRef" then
      match nameResolver src.name "spec.ref" with
      | Except.ok n => ({ dest.1 with fields := [("ref", Value.str n)] }, none)
      | Except.error err => (dest.1, some err)
    else (dest.1, some (fmtErrorf ("unknown rule " ++ rule.rule)))

/-- A small patch-rule interpreter: the rules of `sampleRule`, in order. -/
def sampleInterpreter (dest src : Object) (rules : List ConfigPatch) (nameResolver : NameResolver) :
    Object × Option Error :=
  rules.foldl (sampleRule nameResolver src) (dest, none)

/-- Collaborators for the concrete inputs: the sample interpreter, the physical name
`name-x-namespace-x-vc`, the selector of a label set, and a metadata translation
into the host namespace `vcluster`. -/
def sampleExternals : Externals where
  ApplyPatches := sampleInterpreter
  PhysicalName := fun name ns => name ++ "-x-" ++ ns ++ "-x-vc"
  LabelSelectorAsSelector := fun ls => Except.ok (setSelector ls)
  NewNamespacedTranslator := fun _ _ =>
    ⟨fun vObj => { vObj with Namespace := "vcluster",
                             name := vObj.name ++ "-x-" ++ vObj.Namespace ++ "-x-vc",
                             status := none }⟩

/-- A name cache that knows nothing. -/
def emptyNameCache : NameCache := ⟨fun _ _ => ⟨"", ""⟩⟩

/-- The configuration of the concrete inputs: fields go down, the status comes up. -/
def sampleConfig (selector : Option ConfigSelector) : FromVirtualCluster where
  Kind := "Widget"
  ApiVersion := "example.com/v1"
  Patches := [⟨"copyFields"⟩]
  ReversePatches := [⟨"copyStatus"⟩]
  Selector := selector

/-- The controller of `sampleConfig`, as `CreateFromVirtualSyncer` returns it. -/
def sampleController (selector : Option ConfigSelector) (sel : Option Selector) :
    fromVirtualController where
  NamespacedTranslator :=
    sampleExternals.NewNamespacedTranslator "Widget-from-virtual-syncer"
      ((Object.empty.SetKind "Widget").SetAPIVersion "example.com/v1")
  config := sampleConfig selector
  namecache := emptyNameCache
  selector := sel
  statusIsSubresource := true

/-- The controller without a selector. -/
def openController : fromVirtualController := sampleController none none

/-- The controller with the selector `env=prod`. -/
def prodController : fromVirtualController :=
  sampleController (some ⟨[("env", "prod")]⟩) (some (setSelector [("env", "prod")]))

/-- The controller without a selector whose reverse rules rewrite a reference. -/
def refController : fromVirtualController :=
  { openController with
    config := { sampleConfig none with ReversePatches := [⟨"rewriteRef"⟩] } }

/-- The document `widget`, relabelled `env=dev`. -/
def devWidget : Object := { widget with labels := [("env", "dev")] }

/-- The document `hostWidget` after the forward rules copied the fields of `resizedWidget`. -/
def resizedHostWidget : Object := { hostWidget with fields := resizedWidget.fields }

/-! ## Facts about the executor -/

theorem statusValue_ne_has {o o1 : Object} (h : o.statusValue ≠ o1.statusValue) :
    (o.status.isSome || o1.status.isSome) = true := by
  cases hs : o.status <;> cases hs1 : o1.status <;> simp_all [Object.statusValue]

theorem removeNestedField_of_none {o : Object} (h : o.status = none) :
    RemoveNestedField o = o := by
  cases o; simp_all [RemoveNestedField]

/-- The executor, unfolded down to its two patch steps. -/
theorem executeObjectPatch_unfold (c : Client) (w : World) (obj : Object) (f : MutateFn) :
    executeObjectPatch c w obj f =
      match f w obj with
      | (w1, obj1, some err) =>
        ⟨w1, obj1, OperationResultNone,
          some (fmtErrorf ("failed to apply declared patches to " ++ obj1.GetKind ++ " " ++
            obj1.GetNamespace ++ "/" ++ obj1.GetName ++ ": " ++ err.msg))⟩
      | (w1, obj1, none) =>
        match executeObjectPatch.body c w1 obj1 (RemoveNestedField obj) (RemoveNestedField obj1) with
        | Except.error out => out
        | Except.ok (w2, obj2, updated) =>
          match executeObjectPatch.status c w2 obj2 true obj obj.statusValue obj.status.isSome
              obj1.statusValue obj1.status.isSome updated with
          | Except.error out => out
          | Except.ok (w3, obj3, statusUpdated) =>
            if updated && statusUpdated then ⟨w3, obj3, OperationResultUpdatedStatus, none⟩
            else if updated && !statusUpdated then ⟨w3, obj3, OperationResultUpdated, none⟩
            else if !updated && statusUpdated then ⟨w3, obj3, OperationResultUpdatedStatusOnly, none⟩
            else ⟨w3, obj3, OperationResultNone, none⟩ := by
  rcases hf : f w obj with ⟨w1, obj1, _ | err⟩
  · cases hs : obj.status <;> cases hs1 : obj1.status <;>
      simp [executeObjectPatch, ToUnstructured, DeepCopyObject, NestedFieldCopy, hf, hs, hs1,
        Object.statusValue, removeNestedField_of_none]
  · cases hs : obj.status <;>
      simp [executeObjectPatch, ToUnstructured, DeepCopyObject, NestedFieldCopy, hf, hs]

theorem body_same (c : Client) (w : World) (obj : Object) (before after : Object)
    (h : before = after) :
    executeObjectPatch.body c w obj before after = Except.ok (w, obj, false) := by
  simp [executeObjectPatch.body, h]

theorem body_changed (c : Client) (w : World) (obj : Object) (before after : Object)
    (h : before ≠ after) :
    executeObjectPatch.body c w obj before after =
      match c.ctx.cluster w.calls c.side (Request.Patch obj ⟨before, after⟩) with
      | Response.ok stored =>
        Except.ok ({ w with calls := w.calls ++ [c.entry w.calls (Request.Patch obj ⟨before, after⟩)] },
          stored, true)
      | Response.fail err =>
        Except.error ⟨{ w with calls := w.calls ++ [c.entry w.calls (Request.Patch obj ⟨before, after⟩)] },
          obj, OperationResultNone, some err⟩ := by
  simp only [executeObjectPatch.body, h, jsondiffCompare, jsonMarshal, Client.Patch, Client.send,
    Client.entry]
  cases c.ctx.cluster w.calls c.side (Request.Patch obj ⟨before, after⟩) <;> simp [h]

theorem status_same (c : Client) (w : World) (obj : Object) (sub : Bool) (bws : Object)
    (bs : Value) (hb : Bool) (as : Value) (ha : Bool) (updated : Bool) (h : bs = as) :
    executeObjectPatch.status c w obj sub bws bs hb as ha updated = Except.ok (w, obj, false) := by
  simp [executeObjectPatch.status, h]

theorem status_changed (c : Client) (w : World) (obj : Object) (bws : Object)
    (bs : Value) (hb : Bool) (as : Value) (ha : Bool) (updated : Bool) (h : bs ≠ as)
    (hhas : (hb || ha) = true) :
    executeObjectPatch.status c w obj true bws bs hb as ha updated =
      match c.ctx.cluster w.calls c.side
          (Request.StatusPatch { obj with status := some as } ⟨bws, { obj with status := some as }⟩) with
      | Response.ok stored =>
        Except.ok ({ w with calls := w.calls ++ [c.entry w.calls
          (Request.StatusPatch { obj with status := some as } ⟨bws, { obj with status := some as }⟩)] },
          stored, true)
      | Response.fail err =>
        Except.error ⟨{ w with calls := w.calls ++ [c.entry w.calls
          (Request.StatusPatch { obj with status := some as } ⟨bws, { obj with status := some as }⟩)] },
          { obj with status := some as }, executeObjectPatch.resultSoFar updated, some err⟩ := by
  simp only [executeObjectPatch.status, jsondiffCompare, jsonMarshal, Client.StatusPatch,
    Client.send, Client.entry, ToUnstructured, FromUnstructured, SetNestedField]
  have hc : (true && (hb || ha) && decide (bs ≠ as)) = true := by simp [hhas, h]
  rw [if_pos hc]
  cases c.ctx.cluster w.calls c.side
    (Request.StatusPatch { obj with status := some as } ⟨bws, { obj with status := some as }⟩) <;> simp

/-! ### The seven ways a run of the executor ends after a successful mutation -/

/-- The world after one more recorded request. -/
theorem Client.send_calls (c : Client) (w : World) (req : Request) :
    (c.send w req).1 = { w with calls := w.calls ++ [c.entry w.calls req] } := rfl

theorem exec_mutate_failed (c : Client) (w : World) (obj : Object) (f : MutateFn)
    (w1 : World) (obj1 : Object) (e : Error) (hf : f w obj = (w1, obj1, some e)) :
    executeObjectPatch c w obj f = ⟨w1, obj1, OperationResultNone,
      some (fmtErrorf ("failed to apply declared patches to " ++ obj1.GetKind ++ " " ++
        obj1.GetNamespace ++ "/" ++ obj1.GetName ++ ": " ++ e.msg))⟩ := by
  rw [executeObjectPatch_unfold, hf]

theorem exec_unchanged (c : Client) (w : World) (obj : Object) (f : MutateFn)
    (w1 : World) (obj1 : Object) (hf : f w obj = (w1, obj1, none))
    (hbody : RemoveNestedField obj = RemoveNestedField obj1)
    (hstatus : obj.statusValue = obj1.statusValue) :
    executeObjectPatch c w obj f = ⟨w1, obj1, OperationResultNone, none⟩ := by
  rw [executeObjectPatch_unfold, hf]
  simp [body_same _ _ _ _ _ hbody, status_same _ _ _ _ _ _ _ _ _ _ hstatus]

theorem exec_body_failed (c : Client) (w : World) (obj : Object) (f : MutateFn)
    (w1 : World) (obj1 : Object) (hf : f w obj = (w1, obj1, none))
    (hbody : RemoveNestedField obj ≠ RemoveNestedField obj1) (e : Error)
    (hresp : c.ctx.cluster w1.calls c.side (bodyPatchRequest obj obj1) = Response.fail e) :
    executeObjectPatch c w obj f =
      ⟨{ w1 with calls := w1.calls ++ [c.entry w1.calls (bodyPatchRequest obj obj1)] },
        obj1, OperationResultNone, some e⟩ := by
  rw [executeObjectPatch_unfold, hf]
  simp only [body_changed _ _ _ _ _ hbody]
  rw [bodyPatchRequest] at hresp
  simp [hresp, bodyPatchRequest]

theorem exec_body_only (c : Client) (w : World) (obj : Object) (f : MutateFn)
    (w1 : World) (obj1 : Object) (hf : f w obj = (w1, obj1, none))
    (hbody : RemoveNestedField obj ≠ RemoveNestedField obj1) (stored : Object)
    (hresp : c.ctx.cluster w1.calls c.side (bodyPatchRequest obj obj1) = Response.ok stored)
    (hstatus : obj.statusValue = obj1.statusValue) :
    executeObjectPatch c w obj f =
      ⟨{ w1 with calls := w1.calls ++ [c.entry w1.calls (bodyPatchRequest obj obj1)] },
        stored, OperationResultUpdated, none⟩ := by
  rw [executeObjectPatch_unfold, hf]
  simp only [body_changed _ _ _ _ _ hbody]
  rw [bodyPatchRequest] at hresp
  simp [hresp, bodyPatchRequest, status_same _ _ _ _ _ _ _ _ _ _ hstatus]

theorem exec_body_then_status_failed (c : Client) (w : World) (obj : Object) (f : MutateFn)
    (w1 : World) (obj1 : Object) (hf : f w obj = (w1, obj1, none))
    (hbody : RemoveNestedField obj ≠ RemoveNestedField obj1) (stored : Object)
    (hresp : c.ctx.cluster w1.calls c.side (bodyPatchRequest obj obj1) = Response.ok stored)
    (hstatus : obj.statusValue ≠ obj1.statusValue) (e : Error)
    (hresp2 : c.ctx.cluster (w1.calls ++ [c.entry w1.calls (bodyPatchRequest obj obj1)]) c.side
      (statusPatchRequest obj obj1 stored) = Response.fail e) :
    executeObjectPatch c w obj f =
      ⟨{ w1 with calls := w1.calls ++ [c.entry w1.calls (bodyPatchRequest obj obj1),
          c.entry (w1.calls ++ [c.entry w1.calls (bodyPatchRequest obj obj1)])
            (statusPatchRequest obj obj1 stored)] },
        { stored with status := some obj1.statusValue }, OperationResultUpdated, some e⟩ := by
  rw [executeObjectPatch_unfold, hf]
  simp only [body_changed _ _ _ _ _ hbody]
  rw [bodyPatchRequest] at hresp
  rw [statusPatchRequest, bodyPatchRequest] at hresp2
  simp [hresp, hresp2, bodyPatchRequest, statusPatchRequest,
    status_changed _ _ _ _ _ _ _ _ _ hstatus (statusValue_ne_has hstatus),
    executeObjectPatch.resultSoFar]

theorem exec_body_then_status (c : Client) (w : World) (obj : Object) (f : MutateFn)
    (w1 : World) (obj1 : Object) (hf : f w obj = (w1, obj1, none))
    (hbody : RemoveNestedField obj ≠ RemoveNestedField obj1) (stored : Object)
    (hresp : c.ctx.cluster w1.calls c.side (bodyPatchRequest obj obj1) = Response.ok stored)
    (hstatus : obj.statusValue ≠ obj1.statusValue) (stored2 : Object)
    (hresp2 : c.ctx.cluster (w1.calls ++ [c.entry w1.calls (bodyPatchRequest obj obj1)]) c.side
      (statusPatchRequest obj obj1 stored) = Response.ok stored2) :
    executeObjectPatch c w obj f =
      ⟨{ w1 with calls := w1.calls ++ [c.entry w1.calls (bodyPatchRequest obj obj1),
          c.entry (w1.calls ++ [c.entry w1.calls (bodyPatchRequest obj obj1)])
            (statusPatchRequest obj obj1 stored)] },
        stored2, OperationResultUpdatedStatus, none⟩ := by
  rw [executeObjectPatch_unfold, hf]
  simp only [body_changed _ _ _ _ _ hbody]
  rw [bodyPatchRequest] at hresp
  rw [statusPatchRequest, bodyPatchRequest] at hresp2
  simp [hresp, hresp2, bodyPatchRequest, statusPatchRequest,
    status_changed _ _ _ _ _ _ _ _ _ hstatus (statusValue_ne_has hstatus)]

theorem exec_status_failed (c : Client) (w : World) (obj : Object) (f : MutateFn)
    (w1 : World) (obj1 : Object) (hf : f w obj = (w1, obj1, none))
    (hbody : RemoveNestedField obj = RemoveNestedField obj1)
    (hstatus : obj.statusValue ≠ obj1.statusValue) (e : Error)
    (hresp2 : c.ctx.cluster w1.calls c.side (statusPatchRequest obj obj1 obj1) = Response.fail e) :
    executeObjectPatch c w obj f =
      ⟨{ w1 with calls := w1.calls ++ [c.entry w1.calls (statusPatchRequest obj obj1 obj1)] },
        { obj1 with status := some obj1.statusValue }, OperationResultNone, some e⟩ := by
  rw [executeObjectPatch_unfold, hf]
  rw [statusPatchRequest] at hresp2
  simp [body_same _ _ _ _ _ hbody, hresp2, statusPatchRequest,
    status_changed _ _ _ _ _ _ _ _ _ hstatus (statusValue_ne_has hstatus),
    executeObjectPatch.resultSoFar]

theorem exec_status_only (c : Client) (w : World) (obj : Object) (f : MutateFn)
    (w1 : World) (obj1 : Object) (hf : f w obj = (w1, obj1, none))
    (hbody : RemoveNestedField obj = RemoveNestedField obj1)
    (hstatus : obj.statusValue ≠ obj1.statusValue) (stored2 : Object)
    (hresp2 : c.ctx.cluster w1.calls c.side (statusPatchRequest obj obj1 obj1) = Response.ok stored2) :
    executeObjectPatch c w obj f =
      ⟨{ w1 with calls := w1.calls ++ [c.entry w1.calls (statusPatchRequest obj obj1 obj1)] },
        stored2, OperationResultUpdatedStatusOnly, none⟩ := by
  rw [executeObjectPatch_unfold, hf]
  rw [statusPatchRequest] at hresp2
  simp [body_same _ _ _ _ _ hbody, hresp2, statusPatchRequest,
    status_changed _ _ _ _ _ _ _ _ _ hstatus (statusValue_ne_has hstatus)]

@[simp] theorem Client.entry_side (c : Client) (calls : List Entry) (req : Request) :
    (c.entry calls req).side = c.side := rfl

@[simp] theorem Client.entry_req (c : Client) (calls : List Entry) (req : Request) :
    (c.entry calls req).req = req := rfl

@[simp] theorem Client.entry_resp (c : Client) (calls : List Entry) (req : Request) :
    (c.entry calls req).resp = c.ctx.cluster calls c.side req := rfl

@[simp] theorem bodyPatchRequest_isPatch (obj obj1 : Object) :
    (bodyPatchRequest obj obj1).isPatch = true := rfl

@[simp] theorem statusPatchRequest_isPatch (obj obj1 cur : Object) :
    (statusPatchRequest obj obj1 cur).isPatch = true := rfl

/-- What every run of the executor has in common: it only adds requests, all of them
patches on its own client; a request that fails ends the run with that error; a run
that reports no change and no error sent nothing. -/
theorem exec_summary (c : Client) (w : World) (obj : Object) (f : MutateFn) :
    ∃ added : List Entry,
      (executeObjectPatch c w obj f).world =
        { (f w obj).1 with calls := (f w obj).1.calls ++ added } ∧
      (∀ e ∈ added, e.side = c.side ∧ e.req.isPatch = true) ∧
      (∀ e ∈ added, ∀ err, e.resp = Response.fail err →
        (executeObjectPatch c w obj f).err = some err) ∧
      ((executeObjectPatch c w obj f).err = none →
        (executeObjectPatch c w obj f).result = OperationResultNone → added = []) ∧
      ((f w obj).2.2 ≠ none → added = []) ∧
      (executeObjectPatch c w obj f).result ≠ OperationResultCreated ∧
      (added = [] → (f w obj).2.2 = none →
        RemoveNestedField obj = RemoveNestedField (f w obj).2.1 ∧
        obj.statusValue = (f w obj).2.1.statusValue) := by
  rcases hf : f w obj with ⟨w1, obj1, _ | e⟩
  · by_cases hbody : RemoveNestedField obj = RemoveNestedField obj1
    · by_cases hstatus : obj.statusValue = obj1.statusValue
      · exact ⟨[], by simp [exec_unchanged c w obj f w1 obj1 hf hbody hstatus, hbody, hstatus]⟩
      · cases hr : c.ctx.cluster w1.calls c.side (statusPatchRequest obj obj1 obj1) with
        | ok stored2 =>
          refine ⟨[c.entry w1.calls (statusPatchRequest obj obj1 obj1)], ?_⟩
          simp [exec_status_only c w obj f w1 obj1 hf hbody hstatus stored2 hr, hr]
        | fail err =>
          refine ⟨[c.entry w1.calls (statusPatchRequest obj obj1 obj1)], ?_⟩
          simp [exec_status_failed c w obj f w1 obj1 hf hbody hstatus err hr, hr]
    · cases hr : c.ctx.cluster w1.calls c.side (bodyPatchRequest obj obj1) with
      | fail err =>
        refine ⟨[c.entry w1.calls (bodyPatchRequest obj obj1)], ?_⟩
        simp [exec_body_failed c w obj f w1 obj1 hf hbody err hr, hr]
      | ok stored =>
        by_cases hstatus : obj.statusValue = obj1.statusValue
        · refine ⟨[c.entry w1.calls (bodyPatchRequest obj obj1)], ?_⟩
          simp [exec_body_only c w obj f w1 obj1 hf hbody stored hr hstatus, hr]
        · cases hr2 : c.ctx.cluster (w1.calls ++ [c.entry w1.calls (bodyPatchRequest obj obj1)])
              c.side (statusPatchRequest obj obj1 stored) with
          | ok stored2 =>
            refine ⟨[c.entry w1.calls (bodyPatchRequest obj obj1),
              c.entry (w1.calls ++ [c.entry w1.calls (bodyPatchRequest obj obj1)])
                (statusPatchRequest obj obj1 stored)], ?_⟩
            simp [exec_body_then_status c w obj f w1 obj1 hf hbody stored hr hstatus stored2 hr2,
              hr, hr2]
          | fail err =>
            refine ⟨[c.entry w1.calls (bodyPatchRequest obj obj1),
              c.entry (w1.calls ++ [c.entry w1.calls (bodyPatchRequest obj obj1)])
                (statusPatchRequest obj obj1 stored)], ?_⟩
            simp [exec_body_then_status_failed c w obj f w1 obj1 hf hbody stored hr hstatus err hr2,
              hr, hr2]
  · exact ⟨[], by simp [exec_mutate_failed c w obj f w1 obj1 e hf]⟩

/-! ## The executor: claims C5, C7, C8 -/

/-- C7. Atomicity on mutation failure: when the mutate function returns an error,
`executeObjectPatch` sends nothing (the world is as the mutate function left it) and
returns `OperationResultNone` with an error whose message is built from the kind, the
namespace and the name of the object and the message of the underlying error. -/
theorem executeObjectPatch_mutate_failure (c : Client) (w : World) (obj : Object) (f : MutateFn)
    (w1 : World) (obj1 : Object) (e : Error) (hf : f w obj = (w1, obj1, some e)) :
    (executeObjectPatch c w obj f).world = w1 ∧
    (executeObjectPatch c w obj f).world.calls = w1.calls ∧
    (executeObjectPatch c w obj f).result = OperationResultNone ∧
    (executeObjectPatch c w obj f).err =
      some (fmtErrorf ("failed to apply declared patches to " ++ obj1.GetKind ++ " " ++
        obj1.GetNamespace ++ "/" ++ obj1.GetName ++ ": " ++ e.msg)) := by
  simp [exec_mutate_failed c w obj f w1 obj1 e hf]

theorem executeObjectPatch_mutate_failure_witness :
    failingMutate World.empty widget = (World.empty, widget, some (fmtErrorf "no such path")) ∧
    (executeObjectPatch echoCluster.PhysicalClient World.empty widget failingMutate).world.calls = [] ∧
    (executeObjectPatch echoCluster.PhysicalClient World.empty widget failingMutate).result =
      OperationResultNone ∧
    (executeObjectPatch echoCluster.PhysicalClient World.empty widget failingMutate).err =
      some (fmtErrorf "failed to apply declared patches to Widget ns/a: no such path") :=
  ⟨rfl,
    (executeObjectPatch_mutate_failure echoCluster.PhysicalClient World.empty widget failingMutate
      World.empty widget (fmtErrorf "no such path") rfl).2.1,
    (executeObjectPatch_mutate_failure echoCluster.PhysicalClient World.empty widget failingMutate
      World.empty widget (fmtErrorf "no such path") rfl).2.2.1,
    (executeObjectPatch_mutate_failure echoCluster.PhysicalClient World.empty widget failingMutate
      World.empty widget (fmtErrorf "no such path") rfl).2.2.2.trans (by decide)⟩

/-- C5. Status isolation: when the mutation succeeds, leaves the document without its
status as it was and changes the status value, `executeObjectPatch` sends exactly one
request, a status patch, and no body patch; when that request succeeds it returns
`OperationResultUpdatedStatusOnly` and no error. -/
theorem executeObjectPatch_status_isolation (c : Client) (w : World) (obj : Object) (f : MutateFn)
    (w1 : World) (obj1 : Object) (hf : f w obj = (w1, obj1, none))
    (hbody : RemoveNestedField obj1 = RemoveNestedField obj)
    (hstatus : obj1.statusValue ≠ obj.statusValue) :
    (executeObjectPatch c w obj f).world.calls =
      w1.calls ++ [⟨c.side, statusPatchRequest obj obj1 obj1,
        c.ctx.cluster w1.calls c.side (statusPatchRequest obj obj1 obj1)⟩] ∧
    (∃ target patch, statusPatchRequest obj obj1 obj1 = Request.StatusPatch target patch) ∧
    (∀ stored, c.ctx.cluster w1.calls c.side (statusPatchRequest obj obj1 obj1) = Response.ok stored →
      (executeObjectPatch c w obj f).result = OperationResultUpdatedStatusOnly ∧
      (executeObjectPatch c w obj f).err = none) := by
  refine ⟨?_, ⟨_, _, rfl⟩, ?_⟩
  · cases hr : c.ctx.cluster w1.calls c.side (statusPatchRequest obj obj1 obj1) with
    | ok stored2 =>
      simp [exec_status_only c w obj f w1 obj1 hf hbody.symm (Ne.symm hstatus) stored2 hr,
        Client.entry, hr]
    | fail err =>
      simp [exec_status_failed c w obj f w1 obj1 hf hbody.symm (Ne.symm hstatus) err hr,
        Client.entry, hr]
  · intro stored hr
    simp [exec_status_only c w obj f w1 obj1 hf hbody.symm (Ne.symm hstatus) stored hr]

theorem executeObjectPatch_status_isolation_witness :
    setStatusMutate (Value.str "Ready") World.empty widget = (World.empty, readyWidget, none) ∧
    RemoveNestedField readyWidget = RemoveNestedField widget ∧
    readyWidget.statusValue ≠ widget.statusValue ∧
    (executeObjectPatch echoCluster.VirtualClient World.empty widget
      (setStatusMutate (Value.str "Ready"))).world.calls =
      [⟨Side.virtual, Request.StatusPatch readyWidget ⟨widget, readyWidget⟩,
        Response.ok readyWidget⟩] ∧
    (executeObjectPatch echoCluster.VirtualClient World.empty widget
      (setStatusMutate (Value.str "Ready"))).result = OperationResultUpdatedStatusOnly ∧
    (executeObjectPatch echoCluster.VirtualClient World.empty widget
      (setStatusMutate (Value.str "Ready"))).err = none :=
  ⟨rfl, by decide, by decide,
    (executeObjectPatch_status_isolation echoCluster.VirtualClient World.empty widget
      (setStatusMutate (Value.str "Ready")) World.empty readyWidget rfl (by decide) (by decide)).1,
    ((executeObjectPatch_status_isolation echoCluster.VirtualClient World.empty widget
      (setStatusMutate (Value.str "Ready")) World.empty readyWidget rfl (by decide)
      (by decide)).2.2 readyWidget rfl).1,
    ((executeObjectPatch_status_isolation echoCluster.VirtualClient World.empty widget
      (setStatusMutate (Value.str "Ready")) World.empty readyWidget rfl (by decide)
      (by decide)).2.2 readyWidget rfl).2⟩

/-- C8. Partial-success reporting, for a run whose mutation succeeded:
(1) a body patch that fails gives `OperationResultNone` with its error, and no status
patch is sent; (2) a body patch that succeeds followed by a status patch that fails
gives `OperationResultUpdated` with the error of the status patch; (3) with no body
patch needed, a status patch that fails gives `OperationResultNone` with its error. -/
theorem executeObjectPatch_partial_success (c : Client) (w : World) (obj : Object) (f : MutateFn)
    (w1 : World) (obj1 : Object) (hf : f w obj = (w1, obj1, none)) :
    (∀ e, RemoveNestedField obj ≠ RemoveNestedField obj1 →
      c.ctx.cluster w1.calls c.side (bodyPatchRequest obj obj1) = Response.fail e →
      (executeObjectPatch c w obj f).result = OperationResultNone ∧
      (executeObjectPatch c w obj f).err = some e ∧
      (executeObjectPatch c w obj f).world.calls =
        w1.calls ++ [⟨c.side, bodyPatchRequest obj obj1, Response.fail e⟩]) ∧
    (∀ stored e, RemoveNestedField obj ≠ RemoveNestedField obj1 →
      c.ctx.cluster w1.calls c.side (bodyPatchRequest obj obj1) = Response.ok stored →
      obj.statusValue ≠ obj1.statusValue →
      c.ctx.cluster (w1.calls ++ [⟨c.side, bodyPatchRequest obj obj1, Response.ok stored⟩]) c.side
        (statusPatchRequest obj obj1 stored) = Response.fail e →
      (executeObjectPatch c w obj f).result = OperationResultUpdated ∧
      (executeObjectPatch c w obj f).err = some e ∧
      (executeObjectPatch c w obj f).world.calls =
        w1.calls ++ [⟨c.side, bodyPatchRequest obj obj1, Response.ok stored⟩,
          ⟨c.side, statusPatchRequest obj obj1 stored, Response.fail e⟩]) ∧
    (∀ e, RemoveNestedField obj = RemoveNestedField obj1 →
      obj.statusValue ≠ obj1.statusValue →
      c.ctx.cluster w1.calls c.side (statusPatchRequest obj obj1 obj1) = Response.fail e →
      (executeObjectPatch c w obj f).result = OperationResultNone ∧
      (executeObjectPatch c w obj f).err = some e ∧
      (executeObjectPatch c w obj f).world.calls =
        w1.calls ++ [⟨c.side, statusPatchRequest obj obj1 obj1, Response.fail e⟩]) := by
  refine ⟨?_, ?_, ?_⟩
  · intro e hbody hr
    simp [exec_body_failed c w obj f w1 obj1 hf hbody e hr, Client.entry, hr]
  · intro stored e hbody hr hstatus hr2
    have hent : c.entry w1.calls (bodyPatchRequest obj obj1) =
        ⟨c.side, bodyPatchRequest obj obj1, Response.ok stored⟩ := by simp [Client.entry, hr]
    rw [← hent] at hr2
    simp [exec_body_then_status_failed c w obj f w1 obj1 hf hbody stored hr hstatus e hr2,
      Client.entry, hr]
    rw [← hr2]; simp [Client.entry, hr]
  · intro e hbody hstatus hr
    simp [exec_status_failed c w obj f w1 obj1 hf hbody hstatus e hr, Client.entry, hr]

theorem executeObjectPatch_partial_success_witness :
    (setFieldsMutate [("spec", Value.obj [("size", Value.num 2)])] World.empty widget =
        (World.empty, resizedWidget, none) ∧
      RemoveNestedField widget ≠ RemoveNestedField resizedWidget ∧
      (executeObjectPatch (rejectingCluster conflictError).PhysicalClient World.empty widget
        (setFieldsMutate [("spec", Value.obj [("size", Value.num 2)])])).result =
        OperationResultNone ∧
      (executeObjectPatch (rejectingCluster conflictError).PhysicalClient World.empty widget
        (setFieldsMutate [("spec", Value.obj [("size", Value.num 2)])])).err = some conflictError) ∧
    (setFieldsAndStatusMutate [("spec", Value.obj [("size", Value.num 2)])] (Value.str "Ready")
        World.empty widget = (World.empty, resizedReadyWidget, none) ∧
      RemoveNestedField widget ≠ RemoveNestedField resizedReadyWidget ∧
      widget.statusValue ≠ resizedReadyWidget.statusValue ∧
      (executeObjectPatch (statusRejectingCluster conflictError).PhysicalClient World.empty widget
        (setFieldsAndStatusMutate [("spec", Value.obj [("size", Value.num 2)])]
          (Value.str "Ready"))).result = OperationResultUpdated ∧
      (executeObjectPatch (statusRejectingCluster conflictError).PhysicalClient World.empty widget
        (setFieldsAndStatusMutate [("spec", Value.obj [("size", Value.num 2)])]
          (Value.str "Ready"))).err = some conflictError) ∧
    (setStatusMutate (Value.str "Ready") World.empty widget = (World.empty, readyWidget, none) ∧
      RemoveNestedField widget = RemoveNestedField readyWidget ∧
      widget.statusValue ≠ readyWidget.statusValue ∧
      (executeObjectPatch (rejectingCluster conflictError).PhysicalClient World.empty widget
        (setStatusMutate (Value.str "Ready"))).result = OperationResultNone ∧
      (executeObjectPatch (rejectingCluster conflictError).PhysicalClient World.empty widget
        (setStatusMutate (Value.str "Ready"))).err = some conflictError) :=
  ⟨⟨rfl, by decide,
      ((executeObjectPatch_partial_success (rejectingCluster conflictError).PhysicalClient
        World.empty widget (setFieldsMutate [("spec", Value.obj [("size", Value.num 2)])])
        World.empty resizedWidget rfl).1 conflictError (by decide) rfl).1,
      ((executeObjectPatch_partial_success (rejectingCluster conflictError).PhysicalClient
        World.empty widget (setFieldsMutate [("spec", Value.obj [("size", Value.num 2)])])
        World.empty resizedWidget rfl).1 conflictError (by decide) rfl).2.1⟩,
    ⟨rfl, by decide, by decide,
      ((executeObjectPatch_partial_success (statusRejectingCluster conflictError).PhysicalClient
        World.empty widget (setFieldsAndStatusMutate [("spec", Value.obj [("size", Value.num 2)])]
          (Value.str "Ready")) World.empty resizedReadyWidget rfl).2.1 resizedReadyWidget
        conflictError (by decide) rfl (by decide) rfl).1,
      ((executeObjectPatch_partial_success (statusRejectingCluster conflictError).PhysicalClient
        World.empty widget (setFieldsAndStatusMutate [("spec", Value.obj [("size", Value.num 2)])]
          (Value.str "Ready")) World.empty resizedReadyWidget rfl).2.1 resizedReadyWidget
        conflictError (by decide) rfl (by decide) rfl).2.1⟩,
    ⟨rfl, by decide, by decide,
      ((executeObjectPatch_partial_success (rejectingCluster conflictError).PhysicalClient
        World.empty widget (setStatusMutate (Value.str "Ready")) World.empty readyWidget rfl).2.2
        conflictError (by decide) (by decide) rfl).1,
      ((executeObjectPatch_partial_success (rejectingCluster conflictError).PhysicalClient
        World.empty widget (setStatusMutate (Value.str "Ready")) World.empty readyWidget rfl).2.2
        conflictError (by decide) (by decide) rfl).2.1⟩⟩

/-! ## Facts about the orchestrator -/

@[simp] theorem forwardMutate_world (ext : Externals) (f : fromVirtualController) (vObj : Object)
    (w : World) (obj : Object) :
    (Sync.forwardMutate ext f vObj w obj).1 =
      { w with applied := w.applied ++ [⟨obj, vObj, f.config.Patches⟩] } := by
  simp only [Sync.forwardMutate, patchesApplyPatches]
  split <;> simp_all

@[simp] theorem reverseMutate_world (ext : Externals) (f : fromVirtualController) (pObj : Object)
    (w : World) (obj : Object) :
    (Sync.reverseMutate ext f pObj w obj).1 =
      { w with applied := w.applied ++ [⟨obj, pObj, f.config.ReversePatches⟩] } := by
  simp only [Sync.reverseMutate, patchesApplyPatches]
  split <;> simp_all

theorem Sync_in_scope (ext : Externals) (f : fromVirtualController) (ctx : SyncContext)
    (w : World) (pObj vObj : Object) (h : objectMatches f vObj = true) :
    Sync ext f ctx w pObj vObj =
      match (Sync.forward ext f ctx w pObj vObj).err with
      | some err =>
        if IsInvalid err then
          ⟨(Sync.forward ext f ctx w pObj vObj).world.Infof
              (Sync.timingWarning f.config.Kind pObj.GetNamespace pObj.GetName err),
            Result.requeue, none⟩
        else
          ⟨(Sync.forward ext f ctx w pObj vObj).world, Result.zero,
            some (fmtErrorf ("failed to patch physical " ++ f.config.Kind ++ " " ++
              pObj.GetNamespace ++ "/" ++ pObj.GetName ++ ": " ++ err.msg))⟩
      | none =>
        if (Sync.forward ext f ctx w pObj vObj).result = OperationResultUpdated ∨
            (Sync.forward ext f ctx w pObj vObj).result = OperationResultUpdatedStatus ∨
            (Sync.forward ext f ctx w pObj vObj).result = OperationResultUpdatedStatusOnly then
          ⟨(Sync.forward ext f ctx w pObj vObj).world, Result.zero, none⟩
        else
          match (Sync.reverse ext f ctx w pObj vObj).err with
          | some err =>
            if IsInvalid err then
              ⟨(Sync.reverse ext f ctx w pObj vObj).world.Infof
                  (Sync.timingWarning f.config.Kind (Sync.reverse ext f ctx w pObj vObj).obj.GetNamespace
                    (Sync.reverse ext f ctx w pObj vObj).obj.GetName err),
                Result.requeue, none⟩
            else
              ⟨(Sync.reverse ext f ctx w pObj vObj).world, Result.zero,
                some (fmtErrorf ("failed to patch virtual " ++ f.config.Kind ++ " " ++
                  (Sync.reverse ext f ctx w pObj vObj).obj.GetNamespace ++ "/" ++
                  (Sync.reverse ext f ctx w pObj vObj).obj.GetName ++ ": " ++ err.msg))⟩
          | none => ⟨(Sync.reverse ext f ctx w pObj vObj).world, Result.zero, none⟩ := by
  simp only [Sync, h, Sync.forward, Sync.reverse]
  rfl

theorem Sync_out_of_scope (ext : Externals) (f : fromVirtualController) (ctx : SyncContext)
    (w : World) (pObj vObj : Object) (h : objectMatches f vObj = false) :
    (Sync ext f ctx w pObj vObj).world.calls =
      w.calls ++ [⟨Side.physical, Request.Delete pObj,
        ctx.cluster w.calls Side.physical (Request.Delete pObj)⟩] ∧
    (Sync ext f ctx w pObj vObj).world.applied = w.applied ∧
    (Sync ext f ctx w pObj vObj).result = Result.zero ∧
    (Sync ext f ctx w pObj vObj).err =
      match ctx.cluster w.calls Side.physical (Request.Delete pObj) with
      | Response.ok _ => none
      | Response.fail err => some err := by
  simp only [Sync, h, Client.Delete, Client.send, SyncContext.PhysicalClient, World.Infof]
  cases ctx.cluster w.calls Side.physical (Request.Delete pObj) <;> simp

/-- The requests of one `Sync` call: first those on the physical client, then those on
the virtual client, and never both. A patch that fails with an Invalid error ends the
call with a requeue and no error. -/
theorem Sync_summary (ext : Externals) (f : fromVirtualController) (ctx : SyncContext)
    (w : World) (pObj vObj : Object) :
    ∃ pa va : List Entry,
      (Sync ext f ctx w pObj vObj).world.calls = w.calls ++ (pa ++ va) ∧
      (∀ e ∈ pa, e.side = Side.physical) ∧
      (∀ e ∈ va, e.side = Side.virtual) ∧
      (pa = [] ∨ va = []) ∧
      (objectMatches f vObj = true → ∀ e ∈ pa ++ va, e.req.isPatch = true) ∧
      (∀ e ∈ pa ++ va, e.req.isPatch = true → ∀ err, e.resp = Response.fail err →
        IsInvalid err = true →
        (Sync ext f ctx w pObj vObj).result = Result.requeue ∧
        (Sync ext f ctx w pObj vObj).err = none) := by
  cases h : objectMatches f vObj with
  | false =>
    refine ⟨[⟨Side.physical, Request.Delete pObj,
      ctx.cluster w.calls Side.physical (Request.Delete pObj)⟩], [], ?_⟩
    simp [(Sync_out_of_scope ext f ctx w pObj vObj h).1, Request.isPatch]
  | true =>
    obtain ⟨fa, hfw, hfside, hffail, hfnone, -, hfc, -⟩ :=
      exec_summary ctx.PhysicalClient w (DeepCopyObject pObj) (Sync.forwardMutate ext f vObj)
    obtain ⟨ra, hrw, hrside, hrfail, -, -, -, -⟩ :=
      exec_summary ctx.VirtualClient (Sync.forward ext f ctx w pObj vObj).world vObj
        (Sync.reverseMutate ext f pObj)
    rw [Sync_in_scope ext f ctx w pObj vObj h]
    have hfw2 : (Sync.forward ext f ctx w pObj vObj).world.calls = w.calls ++ fa := by
      rw [Sync.forward, hfw]; simp
    have hrw2 : (Sync.reverse ext f ctx w pObj vObj).world.calls = w.calls ++ fa ++ ra := by
      rw [Sync.reverse, hrw]; simp [hfw2]
    have hps : ∀ e ∈ fa ++ [], e.req.isPatch = true :=
      fun e he => (hfside e (by simpa using he)).2
    have hrs : ∀ e ∈ [] ++ ra, e.req.isPatch = true :=
      fun e he => (hrside e (by simpa using he)).2
    cases hfe : (Sync.forward ext f ctx w pObj vObj).err with
    | some err =>
      have hfail2 : ∀ e ∈ fa ++ [], ∀ err2, e.resp = Response.fail err2 → err2 = err := by
        intro e he err2 h2
        have := hffail e (by simpa using he) err2 h2
        rw [Sync.forward] at hfe
        rw [hfe] at this
        exact (Option.some.inj this).symm
      dsimp only
      by_cases hinv : IsInvalid err = true
      · rw [if_pos hinv]
        refine ⟨fa, [], ?_, fun e he => (hfside e he).1, by simp, Or.inr rfl, fun _ => hps,
          fun _ _ _ _ _ _ => ⟨rfl, rfl⟩⟩
        simp [World.Infof, hfw2]
      · rw [if_neg hinv]
        refine ⟨fa, [], ?_, fun e he => (hfside e he).1, by simp, Or.inr rfl, fun _ => hps, ?_⟩
        · simp [hfw2]
        · intro e he _ err2 h2 hinv2
          rw [hfail2 e he err2 h2] at hinv2
          exact absurd hinv2 hinv
    | none =>
      have hnofail : ∀ e ∈ fa ++ [], ∀ err2, e.resp ≠ Response.fail err2 := by
        intro e he err2 h2
        have := hffail e (by simpa using he) err2 h2
        rw [Sync.forward] at hfe
        rw [hfe] at this
        cases this
      dsimp only
      by_cases hres : (Sync.forward ext f ctx w pObj vObj).result = OperationResultUpdated ∨
          (Sync.forward ext f ctx w pObj vObj).result = OperationResultUpdatedStatus ∨
          (Sync.forward ext f ctx w pObj vObj).result = OperationResultUpdatedStatusOnly
      · rw [if_pos hres]
        refine ⟨fa, [], ?_, fun e he => (hfside e he).1, by simp, Or.inr rfl, fun _ => hps, ?_⟩
        · simp [hfw2]
        · intro e he _ err2 h2
          exact absurd h2 (hnofail e he err2)
      · have hnone : (Sync.forward ext f ctx w pObj vObj).result = OperationResultNone := by
          have hc : (Sync.forward ext f ctx w pObj vObj).result ≠ OperationResultCreated := hfc
          cases hr : (Sync.forward ext f ctx w pObj vObj).result <;> simp_all
        have hfa : fa = [] := hfnone (by rw [Sync.forward] at hfe; exact hfe)
          (by rw [Sync.forward] at hnone; exact hnone)
        subst hfa
        rw [if_neg hres]
        cases hre : (Sync.reverse ext f ctx w pObj vObj).err with
        | some err =>
          have hfail2 : ∀ e ∈ [] ++ ra, ∀ err2, e.resp = Response.fail err2 → err2 = err := by
            intro e he err2 h2
            have := hrfail e (by simpa using he) err2 h2
            rw [Sync.reverse] at hre
            rw [hre] at this
            exact (Option.some.inj this).symm
          dsimp only
          by_cases hinv : IsInvalid err = true
          · rw [if_pos hinv]
            refine ⟨[], ra, ?_, by simp, fun e he => (hrside e he).1, Or.inl rfl, fun _ => hrs,
              fun _ _ _ _ _ _ => ⟨rfl, rfl⟩⟩
            simp [World.Infof, hrw2]
          · rw [if_neg hinv]
            refine ⟨[], ra, ?_, by simp, fun e he => (hrside e he).1, Or.inl rfl, fun _ => hrs, ?_⟩
            · simp [hrw2]
            · intro e he _ err2 h2 hinv2
              rw [hfail2 e he err2 h2] at hinv2
              exact absurd hinv2 hinv
        | none =>
          dsimp only
          refine ⟨[], ra, ?_, by simp, fun e he => (hrside e he).1, Or.inl rfl, fun _ => hrs, ?_⟩
          · simp [hrw2]
          · intro e he _ err2 h2
            have := hrfail e (by simpa using he) err2 h2
            rw [Sync.reverse] at hre
            rw [hre] at this
            cases this

theorem since_append (w w1 : World) (added : List Entry) (h : w1.calls = w.calls ++ added) :
    w.since w1 = added := by
  simp [World.since, h]

/-! ## The orchestrator: claims C3, C6, C9 -/

/-- C6. Transient invalid state is retried, not escalated: in every `Sync` call, when a
body patch or a status patch sent during the call (to the physical or to the virtual
client) fails with an error that `IsInvalid` classifies as Invalid, `Sync` returns a
result with `Requeue = true` and no error. -/
theorem Sync_invalid_patch_requeues (ext : Externals) (f : fromVirtualController)
    (ctx : SyncContext) (w : World) (pObj vObj : Object) (e : Entry) (err : Error)
    (he : e ∈ w.since (Sync ext f ctx w pObj vObj).world)
    (hpatch : e.req.isPatch = true)
    (hfail : e.resp = Response.fail err)
    (hinv : IsInvalid err = true) :
    (Sync ext f ctx w pObj vObj).result.Requeue = true ∧
    (Sync ext f ctx w pObj vObj).err = none := by
  obtain ⟨pa, va, hcalls, -, -, -, -, hreq⟩ := Sync_summary ext f ctx w pObj vObj
  rw [since_append w _ _ hcalls] at he
  obtain ⟨h1, h2⟩ := hreq e he hpatch err hfail hinv
  exact ⟨by rw [h1]; rfl, h2⟩

theorem Sync_invalid_patch_requeues_witness :
    (⟨Side.physical, bodyPatchRequest hostWidget { hostWidget with fields := resizedWidget.fields },
        Response.fail invalidError⟩ : Entry) ∈
      World.empty.since (Sync sampleExternals openController (rejectingCluster invalidError)
        World.empty hostWidget resizedWidget).world ∧
    IsInvalid invalidError = true ∧
    (Sync sampleExternals openController (rejectingCluster invalidError) World.empty hostWidget
      resizedWidget).result.Requeue = true ∧
    (Sync sampleExternals openController (rejectingCluster invalidError) World.empty hostWidget
      resizedWidget).err = none :=
  ⟨by decide, by decide,
    Sync_invalid_patch_requeues sampleExternals openController (rejectingCluster invalidError)
      World.empty hostWidget resizedWidget
      ⟨Side.physical, bodyPatchRequest hostWidget { hostWidget with fields := resizedWidget.fields },
        Response.fail invalidError⟩ invalidError (by decide) rfl rfl (by decide)⟩

theorem forward_applied (ext : Externals) (f : fromVirtualController) (ctx : SyncContext)
    (w : World) (pObj vObj : Object) :
    (Sync.forward ext f ctx w pObj vObj).world.applied =
      w.applied ++ [⟨pObj, vObj, f.config.Patches⟩] := by
  obtain ⟨fa, hfw, -⟩ :=
    exec_summary ctx.PhysicalClient w (DeepCopyObject pObj) (Sync.forwardMutate ext f vObj)
  rw [Sync.forward, hfw]
  simp [DeepCopyObject]

theorem forward_calls (ext : Externals) (f : fromVirtualController) (ctx : SyncContext)
    (w : World) (pObj vObj : Object) :
    ∃ fa, (Sync.forward ext f ctx w pObj vObj).world.calls = w.calls ++ fa ∧
      ∀ e ∈ fa, e.side = Side.physical := by
  obtain ⟨fa, hfw, hside, -⟩ :=
    exec_summary ctx.PhysicalClient w (DeepCopyObject pObj) (Sync.forwardMutate ext f vObj)
  exact ⟨fa, by rw [Sync.forward, hfw]; simp, fun e he => (hside e he).1⟩

/-- C3. Mutual exclusivity within a pass: (1) no `Sync` call sends requests to both the
physical and the virtual client; (2) when the pair is in scope and the forward run of
`executeObjectPatch` reports `Updated`, `UpdatedStatus` or `UpdatedStatusOnly`, the only
invocation of the patch-rule interpreter in the call is the forward one, and no request
goes to the virtual client. -/
theorem Sync_mutual_exclusivity (ext : Externals) (f : fromVirtualController)
    (ctx : SyncContext) (w : World) (pObj vObj : Object) :
    ¬ ((∃ e ∈ w.since (Sync ext f ctx w pObj vObj).world, e.side = Side.physical) ∧
       (∃ e ∈ w.since (Sync ext f ctx w pObj vObj).world, e.side = Side.virtual)) ∧
    (objectMatches f vObj = true →
      ((Sync.forward ext f ctx w pObj vObj).result = OperationResultUpdated ∨
        (Sync.forward ext f ctx w pObj vObj).result = OperationResultUpdatedStatus ∨
        (Sync.forward ext f ctx w pObj vObj).result = OperationResultUpdatedStatusOnly) →
      (Sync ext f ctx w pObj vObj).world.applied =
        w.applied ++ [⟨pObj, vObj, f.config.Patches⟩] ∧
      ∀ e ∈ w.since (Sync ext f ctx w pObj vObj).world, e.side ≠ Side.virtual) := by
  constructor
  · obtain ⟨pa, va, hcalls, hp, hv, hor, -, -⟩ := Sync_summary ext f ctx w pObj vObj
    rw [since_append w _ _ hcalls]
    rintro ⟨⟨e1, he1, hs1⟩, ⟨e2, he2, hs2⟩⟩
    rcases hor with hpa | hva
    · subst hpa
      have := hv e1 (by simpa using he1)
      rw [hs1] at this
      cases this
    · subst hva
      have := hp e2 (by simpa using he2)
      rw [hs2] at this
      cases this
  · intro hscope hres
    obtain ⟨fa, hfc, hfs⟩ := forward_calls ext f ctx w pObj vObj
    have happ := forward_applied ext f ctx w pObj vObj
    have key : (Sync ext f ctx w pObj vObj).world.applied =
          (Sync.forward ext f ctx w pObj vObj).world.applied ∧
        (Sync ext f ctx w pObj vObj).world.calls =
          (Sync.forward ext f ctx w pObj vObj).world.calls := by
      rw [Sync_in_scope ext f ctx w pObj vObj hscope]
      cases hfe : (Sync.forward ext f ctx w pObj vObj).err with
      | some err =>
        dsimp only
        by_cases hinv : IsInvalid err = true
        · rw [if_pos hinv]; exact ⟨rfl, rfl⟩
        · rw [if_neg hinv]; exact ⟨rfl, rfl⟩
      | none =>
        dsimp only
        rw [if_pos hres]; exact ⟨rfl, rfl⟩
    refine ⟨key.1.trans happ, ?_⟩
    rw [since_append w _ fa (key.2.trans hfc)]
    intro e he hv
    have := hfs e he
    rw [hv] at this
    cases this

theorem Sync_mutual_exclusivity_witness :
    objectMatches openController resizedWidget = true ∧
    (Sync.forward sampleExternals openController echoCluster World.empty hostWidget
      resizedWidget).result = OperationResultUpdated ∧
    (Sync sampleExternals openController echoCluster World.empty hostWidget
      resizedWidget).world.applied = [⟨hostWidget, resizedWidget, [⟨"copyFields"⟩]⟩] ∧
    ∀ e ∈ World.empty.since (Sync sampleExternals openController echoCluster World.empty
      hostWidget resizedWidget).world, e.side ≠ Side.virtual :=
  ⟨by decide, by decide,
    (Sync_mutual_exclusivity sampleExternals openController echoCluster World.empty hostWidget
      resizedWidget).2 (by decide) (Or.inl (by decide))⟩

/-- C9. Unresolved name is a hard error: for a pair in scope whose forward run reported
no change and no error, when the reverse rule application fails (as it does when the
name cache answers with an empty name, which makes `TranslateName` return an error),
`Sync` returns an error, its result asks for no requeue, and no request is sent at all,
in particular none to the virtual client. -/
theorem Sync_unresolved_name_hard_error (ext : Externals) (f : fromVirtualController)
    (ctx : SyncContext) (w : World) (pObj vObj : Object) (name path : String)
    (left : Object) (e : Error)
    (hscope : objectMatches f vObj = true)
    (hresult : (Sync.forward ext f ctx w pObj vObj).result = OperationResultNone)
    (herr : (Sync.forward ext f ctx w pObj vObj).err = none)
    (hcache : (f.namecache.ResolveName name path).Name = "")
    (hrev : ext.ApplyPatches vObj pObj f.config.ReversePatches
      (hostToVirtualNameResolver.TranslateName ⟨f.namecache⟩) = (left, some e)) :
    hostToVirtualNameResolver.TranslateName ⟨f.namecache⟩ name path =
      Except.error (fmtErrorf
        ("could not translate " ++ name ++ " host resource name to vcluster resource name")) ∧
    (Sync ext f ctx w pObj vObj).err =
      some (fmtErrorf ("failed to patch virtual " ++ f.config.Kind ++ " " ++ left.GetNamespace ++
        "/" ++ left.GetName ++ ": " ++ ("failed to apply declared patches to " ++ left.GetKind ++
        " " ++ left.GetNamespace ++ "/" ++ left.GetName ++ ": " ++ ("error applying patches: " ++
        e.msg)))) ∧
    (Sync ext f ctx w pObj vObj).result.Requeue = false ∧
    (Sync ext f ctx w pObj vObj).world.calls = w.calls ∧
    w.since (Sync ext f ctx w pObj vObj).world = [] := by
  have hfwd : (Sync.forward ext f ctx w pObj vObj).world.calls = w.calls := by
    obtain ⟨fa, hfw, -, -, hnone, -⟩ :=
      exec_summary ctx.PhysicalClient w (DeepCopyObject pObj) (Sync.forwardMutate ext f vObj)
    have hfa : fa = [] := hnone herr hresult
    rw [Sync.forward, hfw, hfa]; simp
  have hmut : Sync.reverseMutate ext f pObj (Sync.forward ext f ctx w pObj vObj).world vObj =
      ({ (Sync.forward ext f ctx w pObj vObj).world with
          applied := (Sync.forward ext f ctx w pObj vObj).world.applied ++
            [⟨vObj, pObj, f.config.ReversePatches⟩] },
        left, some (fmtErrorf ("error applying patches: " ++ e.msg))) := by
    simp [Sync.reverseMutate, patchesApplyPatches, hrev]
  have hrevout := exec_mutate_failed ctx.VirtualClient (Sync.forward ext f ctx w pObj vObj).world
    vObj (Sync.reverseMutate ext f pObj) _ _ _ hmut
  have hcalls : (Sync ext f ctx w pObj vObj).world.calls = w.calls := by
    rw [Sync_in_scope ext f ctx w pObj vObj hscope, herr]
    simp [hresult, Sync.reverse, hrevout, IsInvalid, fmtErrorf, knownReasons, hfwd]
  refine ⟨by simp [hostToVirtualNameResolver.TranslateName, hcache], ?_, ?_, hcalls, ?_⟩
  · rw [Sync_in_scope ext f ctx w pObj vObj hscope, herr]
    simp [hresult, Sync.reverse, hrevout, IsInvalid, fmtErrorf, knownReasons]
  · rw [Sync_in_scope ext f ctx w pObj vObj hscope, herr]
    simp [hresult, Sync.reverse, hrevout, IsInvalid, fmtErrorf, knownReasons, Result.zero]
  · exact since_append w _ [] (by simp [hcalls])

theorem Sync_unresolved_name_hard_error_witness :
    objectMatches refController widget = true ∧
    (Sync.forward sampleExternals refController echoCluster World.empty hostWidget widget).result =
      OperationResultNone ∧
    (Sync.forward sampleExternals refController echoCluster World.empty hostWidget widget).err =
      none ∧
    (refController.namecache.ResolveName "a-x-ns-x-vc" "spec.ref").Name = "" ∧
    sampleExternals.ApplyPatches widget hostWidget refController.config.ReversePatches
      (hostToVirtualNameResolver.TranslateName ⟨refController.namecache⟩) =
      (widget, some (fmtErrorf
        "could not translate a-x-ns-x-vc host resource name to vcluster resource name")) ∧
    (Sync sampleExternals refController echoCluster World.empty hostWidget widget).err =
      some (fmtErrorf ("failed to patch virtual Widget ns/a: failed to apply declared patches " ++
        "to Widget ns/a: error applying patches: could not translate a-x-ns-x-vc host resource " ++
        "name to vcluster resource name")) ∧
    (Sync sampleExternals refController echoCluster World.empty hostWidget widget).result.Requeue =
      false ∧
    World.empty.since
      (Sync sampleExternals refController echoCluster World.empty hostWidget widget).world = [] :=
  ⟨by decide, by decide, by decide, by decide, by decide,
    (Sync_unresolved_name_hard_error sampleExternals refController echoCluster World.empty
      hostWidget widget "a-x-ns-x-vc" "spec.ref" widget
      (fmtErrorf "could not translate a-x-ns-x-vc host resource name to vcluster resource name")
      (by decide) (by decide) (by decide) (by decide) (by decide)).2.1.trans (by decide),
    (Sync_unresolved_name_hard_error sampleExternals refController echoCluster World.empty
      hostWidget widget "a-x-ns-x-vc" "spec.ref" widget
      (fmtErrorf "could not translate a-x-ns-x-vc host resource name to vcluster resource name")
      (by decide) (by decide) (by decide) (by decide) (by decide)).2.2.1,
    (Sync_unresolved_name_hard_error sampleExternals refController echoCluster World.empty
      hostWidget widget "a-x-ns-x-vc" "spec.ref" widget
      (fmtErrorf "could not translate a-x-ns-x-vc host resource name to vcluster resource name")
      (by decide) (by decide) (by decide) (by decide) (by decide)).2.2.2.2⟩

/-! ## The selector: claims C10, C1, C2 -/

theorem objectMatches_of_no_selector (f : fromVirtualController) (h : f.selector = none)
    (obj : Object) : objectMatches f obj = true := by
  simp [objectMatches, h]

theorem SyncDown_in_scope (ext : Externals) (f : fromVirtualController) (ctx : SyncContext)
    (w : World) (vObj : Object) (h : objectMatches f vObj = true) :
    (SyncDown ext f ctx w vObj).world.applied =
      w.applied ++ [⟨f.NamespacedTranslator.TranslateMetadata vObj, vObj, f.config.Patches⟩] ∧
    ((ext.ApplyPatches (f.NamespacedTranslator.TranslateMetadata vObj) vObj f.config.Patches
        (virtualToHostNameResolver.TranslateName ext ⟨vObj.GetNamespace⟩)).2 = none →
      (SyncDown ext f ctx w vObj).world.calls =
        w.calls ++ [ctx.PhysicalClient.entry w.calls (Request.Create
          (ext.ApplyPatches (f.NamespacedTranslator.TranslateMetadata vObj) vObj f.config.Patches
            (virtualToHostNameResolver.TranslateName ext ⟨vObj.GetNamespace⟩)).1)]) ∧
    (∀ err, (ext.ApplyPatches (f.NamespacedTranslator.TranslateMetadata vObj) vObj f.config.Patches
        (virtualToHostNameResolver.TranslateName ext ⟨vObj.GetNamespace⟩)).2 = some err →
      (SyncDown ext f ctx w vObj).err = some (fmtErrorf ("error applying patches: " ++ err.msg))) := by
  rcases hap : ext.ApplyPatches (f.NamespacedTranslator.TranslateMetadata vObj) vObj f.config.Patches
      (virtualToHostNameResolver.TranslateName ext ⟨vObj.GetNamespace⟩) with ⟨newObj, _ | err⟩
  · cases hr : ctx.cluster w.calls Side.physical (Request.Create newObj) <;>
      simp [SyncDown, h, patchesApplyPatches, hap, Client.Create, Client.send, World.Infof,
        World.Eventf, SyncContext.PhysicalClient, Client.entry, hr]
  · simp [SyncDown, h, patchesApplyPatches, hap]

/-- C10. Absent selector means everything is in scope: when the configuration has no
selector, or a selector with an empty label set, `CreateFromVirtualSyncer` returns a
controller whose selector is nil; for that controller `objectMatches` is true of every
object, `SyncDown` never takes the no-op branch (it always runs the patch rules, and
creates the physical object when they succeed), and `Sync` never sends a delete. -/
theorem absent_selector_everything_in_scope (ext : Externals) (config : FromVirtualCluster)
    (nc : NameCache)
    (h : config.Selector = none ∨ ∃ s, config.Selector = some s ∧ s.LabelSelector = []) :
    ∃ f, CreateFromVirtualSyncer ext config nc = Except.ok f ∧
      f.selector = none ∧ f.config = config ∧
      (∀ obj, objectMatches f obj = true) ∧
      (∀ (ctx : SyncContext) (w : World) (vObj : Object),
        (SyncDown ext f ctx w vObj).world.applied =
          w.applied ++ [⟨f.NamespacedTranslator.TranslateMetadata vObj, vObj, config.Patches⟩] ∧
        ((ext.ApplyPatches (f.NamespacedTranslator.TranslateMetadata vObj) vObj config.Patches
            (virtualToHostNameResolver.TranslateName ext ⟨vObj.GetNamespace⟩)).2 = none →
          (SyncDown ext f ctx w vObj).world.calls =
            w.calls ++ [ctx.PhysicalClient.entry w.calls (Request.Create
              (ext.ApplyPatches (f.NamespacedTranslator.TranslateMetadata vObj) vObj config.Patches
                (virtualToHostNameResolver.TranslateName ext ⟨vObj.GetNamespace⟩)).1)])) ∧
      (∀ (ctx : SyncContext) (w : World) (pObj vObj : Object),
        ∀ e ∈ w.since (Sync ext f ctx w pObj vObj).world, ∀ obj, e.req ≠ Request.Delete obj) := by
  have hcreate : ∃ f, CreateFromVirtualSyncer ext config nc = Except.ok f ∧
      f.selector = none ∧ f.config = config := by
    rcases h with h | ⟨s, hs, hl⟩
    · simp [CreateFromVirtualSyncer, h]
    · simp [CreateFromVirtualSyncer, hs, hl]
  obtain ⟨f, hf, hsel, hcfg⟩ := hcreate
  refine ⟨f, hf, hsel, hcfg, objectMatches_of_no_selector f hsel, ?_, ?_⟩
  · intro ctx w vObj
    have := SyncDown_in_scope ext f ctx w vObj (objectMatches_of_no_selector f hsel vObj)
    rw [hcfg] at this
    exact ⟨this.1, this.2.1⟩
  · intro ctx w pObj vObj e he obj hreq
    obtain ⟨pa, va, hcalls, -, -, -, hpatch, -⟩ := Sync_summary ext f ctx w pObj vObj
    rw [since_append w _ _ hcalls] at he
    have := hpatch (objectMatches_of_no_selector f hsel vObj) e he
    rw [hreq] at this
    cases this

theorem absent_selector_everything_in_scope_witness :
    ((sampleConfig (some ⟨[]⟩)).Selector = none ∨
      ∃ s, (sampleConfig (some ⟨[]⟩)).Selector = some s ∧ s.LabelSelector = []) ∧
    ∃ f, CreateFromVirtualSyncer sampleExternals (sampleConfig (some ⟨[]⟩)) emptyNameCache =
        Except.ok f ∧
      f.selector = none ∧ (∀ obj, objectMatches f obj = true) :=
  ⟨Or.inr ⟨⟨[]⟩, rfl, rfl⟩,
    (absent_selector_everything_in_scope sampleExternals (sampleConfig (some ⟨[]⟩)) emptyNameCache
      (Or.inr ⟨⟨[]⟩, rfl, rfl⟩)).imp fun _ hf => ⟨hf.1, hf.2.1, hf.2.2.2.1⟩⟩

/-- C1, evaluated. The selector `env=prod` does not match the labels `env=dev` of
`devWidget`, yet `SyncDown` runs the patch rules and creates the physical object; and
`widget`, which the selector matches, is the one `SyncDown` skips. -/
theorem SyncDown_creates_unselected_object :
    (setSelector [("env", "prod")]).Matches devWidget.GetLabels = false ∧
    objectMatches prodController devWidget = true ∧
    (SyncDown sampleExternals prodController echoCluster World.empty devWidget).world.calls =
      [⟨Side.physical, Request.Create { devWidget with Namespace := "vcluster", name := "a-x-ns-x-vc" },
        Response.ok { devWidget with Namespace := "vcluster", name := "a-x-ns-x-vc" }⟩] ∧
    (SyncDown sampleExternals prodController echoCluster World.empty devWidget).world.applied =
      [⟨{ devWidget with Namespace := "vcluster", name := "a-x-ns-x-vc" }, devWidget,
        [⟨"copyFields"⟩]⟩] ∧
    (setSelector [("env", "prod")]).Matches widget.GetLabels = true ∧
    SyncDown sampleExternals prodController echoCluster World.empty widget =
      ⟨World.empty, Result.zero, none⟩ := by
  refine ⟨by decide, by decide, by decide, by decide, by decide, by decide⟩

/-- C2, evaluated. The selector `env=prod` does not match the labels `env=dev` of
`devWidget`, yet `Sync` sends no delete: it goes on to patch (here the reverse rules
send a status patch to the virtual client); and for `widget`, which the selector
matches, `Sync` deletes the physical object. -/
theorem Sync_keeps_unselected_object :
    (setSelector [("env", "prod")]).Matches devWidget.GetLabels = false ∧
    (Sync sampleExternals prodController echoCluster World.empty hostWidget devWidget).world.calls =
      [⟨Side.virtual,
        Request.StatusPatch { devWidget with status := hostWidget.status }
          ⟨devWidget, { devWidget with status := hostWidget.status }⟩,
        Response.ok { devWidget with status := hostWidget.status }⟩] ∧
    (setSelector [("env", "prod")]).Matches widget.GetLabels = true ∧
    (Sync sampleExternals prodController echoCluster World.empty hostWidget widget).world.calls =
      [⟨Side.physical, Request.Delete hostWidget, Response.ok hostWidget⟩] := by
  refine ⟨by decide, by decide, by decide, by decide⟩

/-! ## Two calls in succession: claim C4 -/

theorem sampleInterpreter_forward_idempotent : ForwardIdempotent sampleExternals openController := by
  intro src t t1 _ hsame
  obtain ⟨hb, hs⟩ := hsame
  cases t; cases t1; cases src
  simp_all [sampleExternals, sampleInterpreter, sampleRule, openController, sampleController,
    sampleConfig, Object.sameContent, RemoveNestedField, Object.statusValue]

theorem sampleInterpreter_reverse_idempotent : ReverseIdempotent sampleExternals openController := by
  intro src t t1 _ hsame
  obtain ⟨hb, hs⟩ := hsame
  cases t; cases t1; cases src
  simp_all [sampleExternals, sampleInterpreter, sampleRule, openController, sampleController,
    sampleConfig, Object.sameContent, RemoveNestedField, Object.statusValue]

@[simp] theorem Store.get_set_same (s : Store) (side : Side) (o : Option Object) :
    (s.set side o).get side = o := by
  cases side <;> rfl

theorem Store.get_set_other (s : Store) (side other : Side) (o : Option Object)
    (h : other ≠ side) : (s.set side o).get other = s.get other := by
  cases side <;> cases other <;> first | rfl | exact absurd rfl h

theorem Store.replay_append (s : Store) (l1 l2 : List Entry) :
    s.replay (l1 ++ l2) = (s.replay l1).replay l2 := by
  simp [Store.replay, List.foldl_append]

@[simp] theorem Store.replay_nil (s : Store) : s.replay [] = s := rfl

theorem Store.replay_snoc (s : Store) (l : List Entry) (e : Entry) :
    s.replay (l ++ [e]) = ((s.replay l).handle e.side e.req).1 := by
  simp [Store.replay, List.foldl_append]

theorem Store.handle_patch (s : Store) (side : Side) (cur obj src tgt : Object)
    (h : s.get side = some cur) :
    s.handle side (Request.Patch obj ⟨src, tgt⟩) =
      (s.set side (some { tgt with status := cur.status }),
        Response.ok { tgt with status := cur.status }) := by
  simp [Store.handle, h]

theorem Store.handle_statusPatch (s : Store) (side : Side) (cur obj src tgt : Object)
    (h : s.get side = some cur) :
    s.handle side (Request.StatusPatch obj ⟨src, tgt⟩) =
      (s.set side (some { cur with status := tgt.status }),
        Response.ok { cur with status := tgt.status }) := by
  simp [Store.handle, h]

theorem sameContent_symm {a b : Object} (h : a.sameContent b) : b.sameContent a :=
  ⟨h.1.symm, h.2.symm⟩

/-- One request on a faithful storage, seen from the history: the response, the copy on
the side of the request afterwards, and the other copy, which stays. -/
theorem memory_step (init : Store) (calls : List Entry) (side : Side) (req : Request)
    (st : Store) (resp : Response) (h : (init.replay calls).handle side req = (st, resp)) :
    (memoryCluster init).cluster calls side req = resp ∧
    ∀ r, init.replay (calls ++ [⟨side, req, r⟩]) = st := by
  refine ⟨by simp [memoryCluster, h], fun r => ?_⟩
  rw [Store.replay_snoc]; simp [h]

/-- A run of the executor on a faithful storage that holds the object the run starts
from: when the mutation changes the document, the run sends requests to its own client
only, none fails, it reports a change, and the storage ends up holding a document with
the content of the mutated one. -/
theorem exec_on_memory_changed (init : Store) (side : Side) (w : World) (obj : Object)
    (f : MutateFn) (w1 : World) (obj1 : Object) (hf : f w obj = (w1, obj1, none))
    (hstore : (init.replay w1.calls).get side = some obj)
    (hchanged : ¬ obj.sameContent obj1) :
    ∃ (added : List Entry) (s1 : Object),
      (executeObjectPatch ⟨memoryCluster init, side⟩ w obj f).world =
        { w1 with calls := w1.calls ++ added } ∧
      added ≠ [] ∧ (∀ e ∈ added, e.side = side) ∧
      (executeObjectPatch ⟨memoryCluster init, side⟩ w obj f).err = none ∧
      ((executeObjectPatch ⟨memoryCluster init, side⟩ w obj f).result = OperationResultUpdated ∨
        (executeObjectPatch ⟨memoryCluster init, side⟩ w obj f).result =
          OperationResultUpdatedStatus ∨
        (executeObjectPatch ⟨memoryCluster init, side⟩ w obj f).result =
          OperationResultUpdatedStatusOnly) ∧
      (init.replay (w1.calls ++ added)).get side = some s1 ∧ s1.sameContent obj1 ∧
      (∀ other, other ≠ side →
        (init.replay (w1.calls ++ added)).get other = (init.replay w1.calls).get other) := by
  obtain ⟨c, hc⟩ : ∃ c : Client, c = ⟨memoryCluster init, side⟩ := ⟨_, rfl⟩
  have hcs : c.side = side := by rw [hc]
  have hcc : c.ctx = memoryCluster init := by rw [hc]
  rw [← hc]
  by_cases hbody : RemoveNestedField obj = RemoveNestedField obj1
  · have hstatus : obj.statusValue ≠ obj1.statusValue := fun h => hchanged ⟨hbody, h⟩
    obtain ⟨tgt, htgt⟩ : ∃ tgt : Object, tgt = { obj1 with status := some obj1.statusValue } :=
      ⟨_, rfl⟩
    have hreq : statusPatchRequest obj obj1 obj1 = Request.StatusPatch tgt ⟨obj, tgt⟩ := by
      rw [htgt]; rfl
    obtain ⟨hr, hnext⟩ := memory_step init w1.calls side _ _ _
      (Store.handle_statusPatch (init.replay w1.calls) side obj tgt obj tgt hstore)
    have hr2 : c.ctx.cluster w1.calls c.side (statusPatchRequest obj obj1 obj1) =
        Response.ok { obj with status := tgt.status } := by
      rw [hcs, hcc, hreq]; exact hr
    refine ⟨[c.entry w1.calls (statusPatchRequest obj obj1 obj1)],
      { obj with status := tgt.status }, ?_⟩
    rw [exec_status_only c w obj f w1 obj1 hf hbody hstatus _ hr2]
    have hent : c.entry w1.calls (statusPatchRequest obj obj1 obj1) =
        ⟨side, Request.StatusPatch tgt ⟨obj, tgt⟩, Response.ok { obj with status := tgt.status }⟩ := by
      unfold Client.entry; rw [hr2, hcs, hreq]
    refine ⟨rfl, by simp, by simp [hcs], rfl, Or.inr (Or.inr rfl), ?_, ?_, ?_⟩
    · rw [hent, hnext]; simp
    · constructor
      · simpa [RemoveNestedField] using hbody
      · simp [Object.statusValue, htgt]
    · intro other ho
      rw [hent, hnext, Store.get_set_other _ _ _ _ ho]
  · obtain ⟨st, hst⟩ : ∃ st : Object, st = { RemoveNestedField obj1 with status := obj.status } :=
      ⟨_, rfl⟩
    obtain ⟨hr, hnext⟩ := memory_step init w1.calls side _ _ _
      (Store.handle_patch (init.replay w1.calls) side obj obj1 (RemoveNestedField obj)
        (RemoveNestedField obj1) hstore)
    rw [← hst] at hr hnext
    have hr1 : c.ctx.cluster w1.calls c.side (bodyPatchRequest obj obj1) = Response.ok st := by
      rw [hcs, hcc]; exact hr
    have hent : c.entry w1.calls (bodyPatchRequest obj obj1) =
        ⟨side, Request.Patch obj1 ⟨RemoveNestedField obj, RemoveNestedField obj1⟩,
          Response.ok st⟩ := by
      unfold Client.entry; rw [hr1, hcs]; rfl
    have hstb : RemoveNestedField st = RemoveNestedField obj1 := by
      rw [hst]; simp [RemoveNestedField]
    have hsts : st.statusValue = obj.statusValue := by
      rw [hst]; simp [Object.statusValue]
    by_cases hstatus : obj.statusValue = obj1.statusValue
    · refine ⟨[c.entry w1.calls (bodyPatchRequest obj obj1)], st, ?_⟩
      rw [exec_body_only c w obj f w1 obj1 hf hbody _ hr1 hstatus]
      refine ⟨rfl, by simp, by simp [hcs], rfl, Or.inl rfl, ?_, ⟨hstb, hsts.trans hstatus⟩, ?_⟩
      · rw [hent, hnext]; simp
      · intro other ho
        rw [hent, hnext, Store.get_set_other _ _ _ _ ho]
    · obtain ⟨tgt, htgt⟩ : ∃ tgt : Object, tgt = { st with status := some obj1.statusValue } :=
        ⟨_, rfl⟩
      have hreq : statusPatchRequest obj obj1 st = Request.StatusPatch tgt ⟨obj, tgt⟩ := by
        rw [htgt]; rfl
      have hstore2 : (init.replay (w1.calls ++ [c.entry w1.calls (bodyPatchRequest obj obj1)])).get
          side = some st := by
        rw [hent, hnext]; simp
      obtain ⟨hr2, hnext2⟩ := memory_step init
        (w1.calls ++ [c.entry w1.calls (bodyPatchRequest obj obj1)]) side _ _ _
        (Store.handle_statusPatch _ side st tgt obj tgt hstore2)
      have hr3 : c.ctx.cluster (w1.calls ++ [c.entry w1.calls (bodyPatchRequest obj obj1)]) c.side
          (statusPatchRequest obj obj1 st) = Response.ok { st with status := tgt.status } := by
        rw [hcs, hcc, hreq]; exact hr2
      have hent2 : c.entry (w1.calls ++ [c.entry w1.calls (bodyPatchRequest obj obj1)])
          (statusPatchRequest obj obj1 st) =
          ⟨side, Request.StatusPatch tgt ⟨obj, tgt⟩, Response.ok { st with status := tgt.status }⟩ := by
        have hdef : c.entry (w1.calls ++ [c.entry w1.calls (bodyPatchRequest obj obj1)])
            (statusPatchRequest obj obj1 st) =
            ⟨c.side, statusPatchRequest obj obj1 st,
              c.ctx.cluster (w1.calls ++ [c.entry w1.calls (bodyPatchRequest obj obj1)]) c.side
                (statusPatchRequest obj obj1 st)⟩ := rfl
        rw [hdef, hr3, hcs, hreq]
      have happ : w1.calls ++ [c.entry w1.calls (bodyPatchRequest obj obj1),
            c.entry (w1.calls ++ [c.entry w1.calls (bodyPatchRequest obj obj1)])
              (statusPatchRequest obj obj1 st)] =
          (w1.calls ++ [c.entry w1.calls (bodyPatchRequest obj obj1)]) ++
            [c.entry (w1.calls ++ [c.entry w1.calls (bodyPatchRequest obj obj1)])
              (statusPatchRequest obj obj1 st)] := by simp
      refine ⟨[c.entry w1.calls (bodyPatchRequest obj obj1),
          c.entry (w1.calls ++ [c.entry w1.calls (bodyPatchRequest obj obj1)])
            (statusPatchRequest obj obj1 st)],
        { st with status := tgt.status }, ?_⟩
      rw [exec_body_then_status c w obj f w1 obj1 hf hbody _ hr1 hstatus _ hr3]
      refine ⟨rfl, by simp, by simp [hcs], rfl, Or.inr (Or.inl rfl), ?_, ?_, ?_⟩
      · rw [happ, hent2, hnext2]; simp
      · constructor
        · rw [← hstb]; simp [RemoveNestedField]
        · simp [Object.statusValue, htgt]
      · intro other ho
        rw [happ, hent2, hnext2, Store.get_set_other _ _ _ _ ho, hent, hnext,
          Store.get_set_other _ _ _ _ ho]

theorem forwardMutate_ok (ext : Externals) (f : fromVirtualController) (pObj vObj : Object)
    (w : World) (h : (Sync.applyForward ext f pObj vObj).2 = none) :
    Sync.forwardMutate ext f vObj w pObj =
      ({ w with applied := w.applied ++ [⟨pObj, vObj, f.config.Patches⟩] },
        (Sync.applyForward ext f pObj vObj).1, none) := by
  unfold Sync.applyForward at h
  simp only [Sync.forwardMutate, patchesApplyPatches, Sync.applyForward, h]

theorem forwardMutate_failed (ext : Externals) (f : fromVirtualController) (pObj vObj : Object)
    (w : World) (e : Error) (h : (Sync.applyForward ext f pObj vObj).2 = some e) :
    Sync.forwardMutate ext f vObj w pObj =
      ({ w with applied := w.applied ++ [⟨pObj, vObj, f.config.Patches⟩] },
        (Sync.applyForward ext f pObj vObj).1,
        some (fmtErrorf ("error applying patches: " ++ e.msg))) := by
  unfold Sync.applyForward at h
  simp only [Sync.forwardMutate, patchesApplyPatches, Sync.applyForward, h]

theorem reverseMutate_ok (ext : Externals) (f : fromVirtualController) (pObj vObj : Object)
    (w : World) (h : (Sync.applyReverse ext f pObj vObj).2 = none) :
    Sync.reverseMutate ext f pObj w vObj =
      ({ w with applied := w.applied ++ [⟨vObj, pObj, f.config.ReversePatches⟩] },
        (Sync.applyReverse ext f pObj vObj).1, none) := by
  unfold Sync.applyReverse at h
  simp only [Sync.reverseMutate, patchesApplyPatches, Sync.applyReverse, h]

theorem reverseMutate_failed (ext : Externals) (f : fromVirtualController) (pObj vObj : Object)
    (w : World) (e : Error) (h : (Sync.applyReverse ext f pObj vObj).2 = some e) :
    Sync.reverseMutate ext f pObj w vObj =
      ({ w with applied := w.applied ++ [⟨vObj, pObj, f.config.ReversePatches⟩] },
        (Sync.applyReverse ext f pObj vObj).1,
        some (fmtErrorf ("error applying patches: " ++ e.msg))) := by
  unfold Sync.applyReverse at h
  simp only [Sync.reverseMutate, patchesApplyPatches, Sync.applyReverse, h]

theorem fmtErrorf_not_invalid (msg : String) : IsInvalid (fmtErrorf msg) = false := by
  simp [IsInvalid, fmtErrorf, knownReasons]

/-- When the forward rule application fails, `Sync` sends nothing. -/
theorem Sync_forward_failed (ext : Externals) (f : fromVirtualController) (ctx : SyncContext)
    (w : World) (pObj vObj : Object) (hscope : objectMatches f vObj = true) (e : Error)
    (h : (Sync.applyForward ext f pObj vObj).2 = some e) :
    (Sync ext f ctx w pObj vObj).world.calls = w.calls := by
  have hout := exec_mutate_failed ctx.PhysicalClient w (DeepCopyObject pObj)
    (Sync.forwardMutate ext f vObj) _ _ _ (forwardMutate_failed ext f pObj vObj w e h)
  rw [Sync_in_scope ext f ctx w pObj vObj hscope]
  simp [Sync.forward, hout, fmtErrorf_not_invalid]

/-- When the forward rule application changes the physical document, the requests of
`Sync` are those of its forward run. -/
theorem Sync_forward_changed (ext : Externals) (f : fromVirtualController) (ctx : SyncContext)
    (w : World) (pObj vObj : Object) (hscope : objectMatches f vObj = true)
    (h : (Sync.applyForward ext f pObj vObj).2 = none)
    (hchanged : ¬ pObj.sameContent (Sync.applyForward ext f pObj vObj).1) :
    (Sync ext f ctx w pObj vObj).world.calls =
      (Sync.forward ext f ctx w pObj vObj).world.calls := by
  obtain ⟨fa, -, -, -, hnone, -, hcreated, hsame⟩ :=
    exec_summary ctx.PhysicalClient w (DeepCopyObject pObj) (Sync.forwardMutate ext f vObj)
  rw [Sync_in_scope ext f ctx w pObj vObj hscope]
  cases hfe : (Sync.forward ext f ctx w pObj vObj).err with
  | some err =>
    dsimp only
    by_cases hinv : IsInvalid err = true
    · rw [if_pos hinv]; rfl
    · rw [if_neg hinv]
  | none =>
    dsimp only
    by_cases hres : (Sync.forward ext f ctx w pObj vObj).result = OperationResultUpdated ∨
        (Sync.forward ext f ctx w pObj vObj).result = OperationResultUpdatedStatus ∨
        (Sync.forward ext f ctx w pObj vObj).result = OperationResultUpdatedStatusOnly
    · rw [if_pos hres]
    · exfalso
      have hnone2 : (Sync.forward ext f ctx w pObj vObj).result = OperationResultNone := by
        have hc : (Sync.forward ext f ctx w pObj vObj).result ≠ OperationResultCreated := hcreated
        cases hr : (Sync.forward ext f ctx w pObj vObj).result <;> simp_all
      have hfa : fa = [] := hnone hfe hnone2
      have := hsame hfa (by rw [DeepCopyObject, forwardMutate_ok ext f pObj vObj w h])
      rw [DeepCopyObject, forwardMutate_ok ext f pObj vObj w h] at this
      exact hchanged this

/-- When the forward rule application leaves the physical document as it is, the
forward run sends nothing and `Sync` goes on to the reverse run. -/
theorem Sync_forward_quiet (ext : Externals) (f : fromVirtualController) (ctx : SyncContext)
    (w : World) (pObj vObj : Object) (hscope : objectMatches f vObj = true)
    (h : (Sync.applyForward ext f pObj vObj).2 = none)
    (hsame : pObj.sameContent (Sync.applyForward ext f pObj vObj).1) :
    (Sync.forward ext f ctx w pObj vObj).world.calls = w.calls ∧
    (Sync.forward ext f ctx w pObj vObj).result = OperationResultNone ∧
    (Sync.forward ext f ctx w pObj vObj).err = none ∧
    (Sync ext f ctx w pObj vObj).world.calls =
      (Sync.reverse ext f ctx w pObj vObj).world.calls := by
  have hout := exec_unchanged ctx.PhysicalClient w (DeepCopyObject pObj)
    (Sync.forwardMutate ext f vObj) _ _ (forwardMutate_ok ext f pObj vObj w h) hsame.1 hsame.2
  have hfwd : Sync.forward ext f ctx w pObj vObj = _ := hout
  refine ⟨by rw [hfwd], by rw [hfwd], by rw [hfwd], ?_⟩
  rw [Sync_in_scope ext f ctx w pObj vObj hscope]
  have herr : (Sync.forward ext f ctx w pObj vObj).err = none := by rw [hfwd]
  have hres : (Sync.forward ext f ctx w pObj vObj).result = OperationResultNone := by rw [hfwd]
  rw [herr]
  dsimp only
  rw [if_neg (by rw [hres]; simp)]
  cases hre : (Sync.reverse ext f ctx w pObj vObj).err with
  | some err =>
    dsimp only
    by_cases hinv : IsInvalid err = true
    · rw [if_pos hinv]; rfl
    · rw [if_neg hinv]
  | none => rfl

/-- When neither rule application changes its target (or one of them fails before a
change), `Sync` sends nothing, whatever the cluster and the world. -/
theorem Sync_quiet (ext : Externals) (f : fromVirtualController) (ctx : SyncContext)
    (w : World) (pObj vObj : Object) (hscope : objectMatches f vObj = true)
    (h : (Sync.applyForward ext f pObj vObj).2 ≠ none ∨
      ((Sync.applyForward ext f pObj vObj).2 = none ∧
        pObj.sameContent (Sync.applyForward ext f pObj vObj).1 ∧
        ((Sync.applyReverse ext f pObj vObj).2 ≠ none ∨
          vObj.sameContent (Sync.applyReverse ext f pObj vObj).1))) :
    (Sync ext f ctx w pObj vObj).world.calls = w.calls := by
  rcases h with hf | ⟨hf, hsame, hr⟩
  · cases hfe : (Sync.applyForward ext f pObj vObj).2 with
    | none => exact absurd hfe hf
    | some e => exact Sync_forward_failed ext f ctx w pObj vObj hscope e hfe
  · obtain ⟨hcalls, -, -, hsync⟩ := Sync_forward_quiet ext f ctx w pObj vObj hscope hf hsame
    rw [hsync]
    cases hre : (Sync.applyReverse ext f pObj vObj).2 with
    | some e =>
      have hout := exec_mutate_failed ctx.VirtualClient (Sync.forward ext f ctx w pObj vObj).world
        vObj (Sync.reverseMutate ext f pObj) _ _ _ (reverseMutate_failed ext f pObj vObj _ e hre)
      rw [Sync.reverse, hout]; exact hcalls
    | none =>
      rcases hr with hr | hr
      · exact absurd hre hr
      · have hout := exec_unchanged ctx.VirtualClient (Sync.forward ext f ctx w pObj vObj).world
          vObj (Sync.reverseMutate ext f pObj) _ _ (reverseMutate_ok ext f pObj vObj _ hre)
          hr.1 hr.2
        rw [Sync.reverse, hout]; exact hcalls

theorem reverse_calls (ext : Externals) (f : fromVirtualController) (ctx : SyncContext)
    (w : World) (pObj vObj : Object) :
    ∃ ra, (Sync.reverse ext f ctx w pObj vObj).world.calls =
        (Sync.forward ext f ctx w pObj vObj).world.calls ++ ra ∧
      ∀ e ∈ ra, e.side = Side.virtual := by
  obtain ⟨ra, hrw, hside, -⟩ :=
    exec_summary ctx.VirtualClient (Sync.forward ext f ctx w pObj vObj).world vObj
      (Sync.reverseMutate ext f pObj)
  exact ⟨ra, by rw [Sync.reverse, hrw]; simp, fun e he => (hside e he).1⟩

/-- The first call on a faithful storage, when the forward rules change the physical
document: only the physical client is written, and the storage then holds a physical
document with the content the rules produced, next to the untouched virtual one. -/
theorem firstSync_forward_changed (ext : Externals) (f : fromVirtualController)
    (pObj vObj : Object) (hscope : objectMatches f vObj = true)
    (h : (Sync.applyForward ext f pObj vObj).2 = none)
    (hchanged : ¬ pObj.sameContent (Sync.applyForward ext f pObj vObj).1) :
    ∃ (added : List Entry) (s1 : Object),
      (firstSync ext f pObj vObj).world.calls = added ∧ added ≠ [] ∧
      (∀ e ∈ added, e.side = Side.physical) ∧
      (storeAfterFirstSync ext f pObj vObj).physical = some s1 ∧
      s1.sameContent (Sync.applyForward ext f pObj vObj).1 ∧
      (storeAfterFirstSync ext f pObj vObj).virtual = some vObj := by
  obtain ⟨added, s1, hw, hne, hside, -, -, hget, hsame, hother⟩ :=
    exec_on_memory_changed ⟨some pObj, some vObj⟩ Side.physical World.empty pObj
      (Sync.forwardMutate ext f vObj) _ _ (forwardMutate_ok ext f pObj vObj World.empty h)
      (by simp [World.empty, Store.get]) hchanged
  have hcalls : (firstSync ext f pObj vObj).world.calls = added := by
    rw [firstSync, Sync_forward_changed ext f _ World.empty pObj vObj hscope h hchanged]
    have : (Sync.forward ext f (memoryCluster ⟨some pObj, some vObj⟩) World.empty pObj vObj).world =
        _ := hw
    rw [this]; simp [World.empty]
  refine ⟨added, s1, hcalls, hne, hside, ?_, hsame, ?_⟩
  · rw [storeAfterFirstSync, hcalls]
    simpa [World.empty, Store.get] using hget
  · rw [storeAfterFirstSync, hcalls]
    have := hother Side.virtual (by decide)
    simpa [World.empty, Store.get] using this

/-- The first call on a faithful storage, when the forward rules change nothing and the
reverse rules change the virtual document: only the virtual client is written, and the
storage then holds a virtual document with the content the rules produced, next to the
untouched physical one. -/
theorem firstSync_reverse_changed (ext : Externals) (f : fromVirtualController)
    (pObj vObj : Object) (hscope : objectMatches f vObj = true)
    (h : (Sync.applyForward ext f pObj vObj).2 = none)
    (hsame : pObj.sameContent (Sync.applyForward ext f pObj vObj).1)
    (hr : (Sync.applyReverse ext f pObj vObj).2 = none)
    (hchanged : ¬ vObj.sameContent (Sync.applyReverse ext f pObj vObj).1) :
    ∃ (added : List Entry) (s1 : Object),
      (firstSync ext f pObj vObj).world.calls = added ∧ added ≠ [] ∧
      (∀ e ∈ added, e.side = Side.virtual) ∧
      (storeAfterFirstSync ext f pObj vObj).virtual = some s1 ∧
      s1.sameContent (Sync.applyReverse ext f pObj vObj).1 ∧
      (storeAfterFirstSync ext f pObj vObj).physical = some pObj := by
  obtain ⟨hfcalls, -, -, hsync⟩ := Sync_forward_quiet ext f
    (memoryCluster ⟨some pObj, some vObj⟩) World.empty pObj vObj hscope h hsame
  have hfc : (Sync.forward ext f (memoryCluster ⟨some pObj, some vObj⟩) World.empty pObj
      vObj).world.calls = [] := hfcalls
  obtain ⟨added, s1, hw, hne, hside, -, -, hget, hsame1, hother⟩ :=
    exec_on_memory_changed ⟨some pObj, some vObj⟩ Side.virtual
      (Sync.forward ext f (memoryCluster ⟨some pObj, some vObj⟩) World.empty pObj vObj).world vObj
      (Sync.reverseMutate ext f pObj) _ _ (reverseMutate_ok ext f pObj vObj _ hr)
      (by simp [hfc, Store.get]) hchanged
  have hcalls : (firstSync ext f pObj vObj).world.calls = added := by
    rw [firstSync, hsync]
    have : (Sync.reverse ext f (memoryCluster ⟨some pObj, some vObj⟩) World.empty pObj vObj).world =
        _ := hw
    rw [this]; simp [hfc]
  refine ⟨added, s1, hcalls, hne, hside, ?_, hsame1, ?_⟩
  · rw [storeAfterFirstSync, hcalls]
    simpa [hfc, Store.get] using hget
  · rw [storeAfterFirstSync, hcalls]
    have := hother Side.physical (by decide)
    simpa [hfc, Store.get] using this

/-- C4 as stated fails. With an idempotent interpreter (fields go down, the status comes
up) and a faithful storage, the first `Sync` call on `hostWidget` and `resizedWidget`
patches the physical object and skips the reverse rules; the second call, on the pair
as stored, finds the physical object settled and sends a status patch to the virtual
client: its reverse run returns `OperationResultUpdatedStatusOnly`. -/
theorem Sync_second_call_writes_virtual :
    ForwardIdempotent sampleExternals openController ∧
    ReverseIdempotent sampleExternals openController ∧
    objectMatches openController resizedWidget = true ∧
    World.empty.since (firstSync sampleExternals openController hostWidget resizedWidget).world =
      [⟨Side.physical, bodyPatchRequest hostWidget resizedHostWidget,
        Response.ok resizedHostWidget⟩] ∧
    storeAfterFirstSync sampleExternals openController hostWidget resizedWidget =
      ⟨some resizedHostWidget, some resizedWidget⟩ ∧
    (firstSync sampleExternals openController hostWidget resizedWidget).world.since
        (secondSync sampleExternals openController hostWidget resizedWidget
          resizedHostWidget resizedWidget).world =
      [⟨Side.virtual,
        Request.StatusPatch { resizedWidget with status := hostWidget.status }
          ⟨resizedWidget, { resizedWidget with status := hostWidget.status }⟩,
        Response.ok { resizedWidget with status := hostWidget.status }⟩] ∧
    (Sync.reverse sampleExternals openController (memoryCluster ⟨some hostWidget, some resizedWidget⟩)
      (firstSync sampleExternals openController hostWidget resizedWidget).world
      resizedHostWidget resizedWidget).result = OperationResultUpdatedStatusOnly :=
  ⟨sampleInterpreter_forward_idempotent, sampleInterpreter_reverse_idempotent,
    by decide, by decide, by decide, by decide, by decide⟩

/-- C4, amended. Two `Sync` calls in succession on a pair for which `objectMatches`
holds, with an idempotent interpreter and a faithful storage, the second call on the
pair as stored after the first: (1) if the first call wrote to the physical client,
the forward run of the second call returns `OperationResultNone` and the second call
sends nothing to the physical client; (2) if the first call wrote to the virtual
client, the second call sends nothing to the virtual client; (3) if the first call
sent nothing, the second call sends nothing. -/
theorem Sync_twice_quiet_on_written_client (ext : Externals) (f : fromVirtualController)
    (pObj vObj pObj1 vObj1 : Object)
    (hfi : ForwardIdempotent ext f) (hri : ReverseIdempotent ext f)
    (hscope : objectMatches f vObj = true)
    (hp : (storeAfterFirstSync ext f pObj vObj).physical = some pObj1)
    (hv : (storeAfterFirstSync ext f pObj vObj).virtual = some vObj1) :
    ((∃ e ∈ World.empty.since (firstSync ext f pObj vObj).world, e.side = Side.physical) →
      (Sync.forward ext f (memoryCluster ⟨some pObj, some vObj⟩) (firstSync ext f pObj vObj).world
        pObj1 vObj1).result = OperationResultNone ∧
      ∀ e ∈ (firstSync ext f pObj vObj).world.since (secondSync ext f pObj vObj pObj1 vObj1).world,
        e.side ≠ Side.physical) ∧
    ((∃ e ∈ World.empty.since (firstSync ext f pObj vObj).world, e.side = Side.virtual) →
      ∀ e ∈ (firstSync ext f pObj vObj).world.since (secondSync ext f pObj vObj pObj1 vObj1).world,
        e.side ≠ Side.virtual) ∧
    (World.empty.since (firstSync ext f pObj vObj).world = [] →
      (firstSync ext f pObj vObj).world.since (secondSync ext f pObj vObj pObj1 vObj1).world = []) := by
  have hsince0 : ∀ l, (firstSync ext f pObj vObj).world.calls = l →
      World.empty.since (firstSync ext f pObj vObj).world = l := fun l hl =>
    since_append World.empty _ l (by simp [World.empty, hl])
  -- the second call after a first call that sent nothing
  have hquiet : (firstSync ext f pObj vObj).world.calls = [] →
      ((Sync.applyForward ext f pObj vObj).2 ≠ none ∨
        ((Sync.applyForward ext f pObj vObj).2 = none ∧
          pObj.sameContent (Sync.applyForward ext f pObj vObj).1 ∧
          ((Sync.applyReverse ext f pObj vObj).2 ≠ none ∨
            vObj.sameContent (Sync.applyReverse ext f pObj vObj).1))) →
      (firstSync ext f pObj vObj).world.since (secondSync ext f pObj vObj pObj1 vObj1).world = [] := by
    intro hcalls hq
    have hp1 : pObj1 = pObj := by
      rw [storeAfterFirstSync, hcalls] at hp
      exact (Option.some.inj hp).symm
    have hv1 : vObj1 = vObj := by
      rw [storeAfterFirstSync, hcalls] at hv
      exact (Option.some.inj hv).symm
    subst hp1; subst hv1
    exact since_append _ _ [] (by
      rw [secondSync, Sync_quiet ext f _ _ pObj1 vObj1 hscope hq]; simp)
  have hempty : (firstSync ext f pObj vObj).world.calls = [] →
      ¬ ∃ e ∈ World.empty.since (firstSync ext f pObj vObj).world, e.side = Side.physical ∨
        e.side = Side.virtual := by
    intro hcalls
    rw [hsince0 [] hcalls]
    simp
  cases hF : (Sync.applyForward ext f pObj vObj).2 with
  | some e =>
    have hcalls : (firstSync ext f pObj vObj).world.calls = [] :=
      Sync_forward_failed ext f _ World.empty pObj vObj hscope e hF
    have hq := hquiet hcalls (Or.inl (by rw [hF]; simp))
    refine ⟨fun ⟨e, he, hs⟩ => absurd ⟨e, he, Or.inl hs⟩ (hempty hcalls),
      fun ⟨e, he, hs⟩ => absurd ⟨e, he, Or.inr hs⟩ (hempty hcalls), fun _ => hq⟩
  | none =>
    by_cases hsame : pObj.sameContent (Sync.applyForward ext f pObj vObj).1
    · have hrq : ((Sync.applyReverse ext f pObj vObj).2 ≠ none ∨
            vObj.sameContent (Sync.applyReverse ext f pObj vObj).1) →
          (firstSync ext f pObj vObj).world.calls = [] := fun hr =>
        Sync_quiet ext f _ World.empty pObj vObj hscope (Or.inr ⟨hF, hsame, hr⟩)
      cases hR : (Sync.applyReverse ext f pObj vObj).2 with
      | some e =>
        have hr : (Sync.applyReverse ext f pObj vObj).2 ≠ none ∨
            vObj.sameContent (Sync.applyReverse ext f pObj vObj).1 := Or.inl (by rw [hR]; simp)
        have hcalls := hrq hr
        have hq := hquiet hcalls (Or.inr ⟨hF, hsame, hr⟩)
        refine ⟨fun ⟨e, he, hs⟩ => absurd ⟨e, he, Or.inl hs⟩ (hempty hcalls),
          fun ⟨e, he, hs⟩ => absurd ⟨e, he, Or.inr hs⟩ (hempty hcalls), fun _ => hq⟩
      | none =>
        by_cases hsameR : vObj.sameContent (Sync.applyReverse ext f pObj vObj).1
        · have hcalls := hrq (Or.inr hsameR)
          have hq := hquiet hcalls (Or.inr ⟨hF, hsame, Or.inr hsameR⟩)
          refine ⟨fun ⟨e, he, hs⟩ => absurd ⟨e, he, Or.inl hs⟩ (hempty hcalls),
            fun ⟨e, he, hs⟩ => absurd ⟨e, he, Or.inr hs⟩ (hempty hcalls), fun _ => hq⟩
        · -- the first call wrote the virtual document
          obtain ⟨added, s1, hcalls, hne, hside, hsv, hs1, hsp⟩ :=
            firstSync_reverse_changed ext f pObj vObj hscope hF hsame hR hsameR
          have hp1 : pObj1 = pObj := by rw [hsp] at hp; exact (Option.some.inj hp).symm
          have hv1 : vObj1 = s1 := by rw [hsv] at hv; exact (Option.some.inj hv).symm
          subst hp1; subst hv1
          refine ⟨?_, ?_, ?_⟩
          · rintro ⟨e, he, hs⟩
            rw [hsince0 added hcalls] at he
            have := hside e he
            rw [hs] at this
            cases this
          · intro _
            cases hscope1 : objectMatches f vObj1 with
            | false =>
              have hdel := (Sync_out_of_scope ext f (memoryCluster ⟨some pObj1, some vObj⟩)
                (firstSync ext f pObj1 vObj).world pObj1 vObj1 hscope1).1
              rw [secondSync, since_append _ _ _ hdel]
              intro e he
              simp at he
              rw [he]; simp
            | true =>
              cases hF2 : (Sync.applyForward ext f pObj1 vObj1).2 with
              | some e2 =>
                rw [secondSync, since_append _ _ []
                  (by rw [Sync_forward_failed ext f _ _ pObj1 vObj1 hscope1 e2 hF2]; simp)]
                simp
              | none =>
                by_cases hsame2 : pObj1.sameContent (Sync.applyForward ext f pObj1 vObj1).1
                · obtain ⟨hr2, hrs2⟩ := hri pObj1 vObj vObj1 hR hs1
                  rw [secondSync, since_append _ _ []
                    (by rw [Sync_quiet ext f _ _ pObj1 vObj1 hscope1
                      (Or.inr ⟨hF2, hsame2, Or.inr (sameContent_symm hrs2)⟩)]; simp)]
                  simp
                · obtain ⟨fa, hfa, hfs⟩ := forward_calls ext f
                    (memoryCluster ⟨some pObj1, some vObj⟩) (firstSync ext f pObj1 vObj).world
                    pObj1 vObj1
                  rw [secondSync, since_append _ _ fa
                    (by rw [Sync_forward_changed ext f _ _ pObj1 vObj1 hscope1 hF2 hsame2, hfa])]
                  intro e he hs
                  have := hfs e he
                  rw [hs] at this
                  cases this
          · intro h0
            rw [hsince0 added hcalls] at h0
            exact absurd h0 hne
    · -- the first call wrote the physical document
      obtain ⟨added, s1, hcalls, hne, hside, hsp, hs1, hsv⟩ :=
        firstSync_forward_changed ext f pObj vObj hscope hF hsame
      have hp1 : pObj1 = s1 := by rw [hsp] at hp; exact (Option.some.inj hp).symm
      have hv1 : vObj1 = vObj := by rw [hsv] at hv; exact (Option.some.inj hv).symm
      subst hp1; subst hv1
      refine ⟨?_, ?_, ?_⟩
      · intro _
        obtain ⟨hf2, hfs2⟩ := hfi vObj1 pObj pObj1 hF hs1
        obtain ⟨hfc, hres, -, hsync⟩ := Sync_forward_quiet ext f
          (memoryCluster ⟨some pObj, some vObj1⟩) (firstSync ext f pObj vObj1).world pObj1 vObj1
          hscope hf2 (sameContent_symm hfs2)
        refine ⟨hres, ?_⟩
        obtain ⟨ra, hra, hrs⟩ := reverse_calls ext f (memoryCluster ⟨some pObj, some vObj1⟩)
          (firstSync ext f pObj vObj1).world pObj1 vObj1
        rw [secondSync, since_append _ _ ra (by rw [hsync, hra, hfc])]
        intro e he hs
        have := hrs e he
        rw [hs] at this
        cases this
      · rintro ⟨e, he, hs⟩
        rw [hsince0 added hcalls] at he
        have := hside e he
        rw [hs] at this
        cases this
      · intro h0
        rw [hsince0 added hcalls] at h0
        exact absurd h0 hne

theorem Sync_twice_quiet_on_written_client_witness :
    objectMatches openController resizedWidget = true ∧
    (storeAfterFirstSync sampleExternals openController hostWidget resizedWidget).physical =
      some resizedHostWidget ∧
    (storeAfterFirstSync sampleExternals openController hostWidget resizedWidget).virtual =
      some resizedWidget ∧
    (∃ e ∈ World.empty.since
        (firstSync sampleExternals openController hostWidget resizedWidget).world,
      e.side = Side.physical) ∧
    (Sync.forward sampleExternals openController
        (memoryCluster ⟨some hostWidget, some resizedWidget⟩)
        (firstSync sampleExternals openController hostWidget resizedWidget).world
        resizedHostWidget resizedWidget).result = OperationResultNone ∧
    ∀ e ∈ (firstSync sampleExternals openController hostWidget resizedWidget).world.since
        (secondSync sampleExternals openController hostWidget resizedWidget
          resizedHostWidget resizedWidget).world,
      e.side ≠ Side.physical :=
  ⟨by decide, by decide, by decide, by decide,
    (Sync_twice_quiet_on_written_client sampleExternals openController hostWidget resizedWidget
      resizedHostWidget resizedWidget sampleInterpreter_forward_idempotent
      sampleInterpreter_reverse_idempotent (by decide) (by decide) (by decide)).1 (by decide)⟩

end Syncer
